import Mathlib

/-!
Shallow embedding of the proxy control-plane core (src/proxy.c) of a
TCP/HTTP reverse-proxy load balancer, together with theorems checking the
natural-language specification against it.

Modelling conventions:
* C structs become Lean structures; machine integers become `Nat` (or `Int`
  where the C value can be negative).  Single-bit flag fields that the code
  only ever tests or assigns individually are modelled as `Bool` fields;
  multi-bit masks that the code combines with `|`/`&` stay `Nat` bitmasks.
* Pointers to registry entries are identified by `uuid` (proxies) or by the
  position in the owning list (servers); allocation is modelled by explicit
  success flags in an environment record where a claim depends on it.
* External collaborators (scheduler, listener subsystem, health checks,
  pools, time service) are modelled from the spec as events or abstract
  parameters; such definitions carry a doc comment saying so.
-/

/-- Proxy capability bit: frontend. -/
def PR_CAP_FE : Nat := 1

/-- Proxy capability bit: backend. -/
def PR_CAP_BE : Nat := 2

/-- Proxy capability bit: ruleset. -/
def PR_CAP_RS : Nat := 4

/-- Combined listen capability (`FE|BE`). -/
def PR_CAP_LISTEN : Nat := PR_CAP_FE ||| PR_CAP_BE

/-- Server state bit: the server is up. -/
def SRV_RUNNING : Nat := 1

/-- Server state bit: backup server. -/
def SRV_BACKUP : Nat := 2

/-- Server state bit: maintenance mode. -/
def SRV_MAINTAIN : Nat := 64

/-- Server state bit: health checks enabled. -/
def SRV_CHECKED : Nat := 8

/-- Effective-weight scale factor (external constant `BE_WEIGHT_SCALE`). -/
def BE_WEIGHT_SCALE : Nat := 256

/-- Initial health-check status (external constant `HCHK_STATUS_INI`). -/
def HCHK_STATUS_INI : Nat := 1

/-- Proxy modes (`PR_MODE_*`). -/
inductive PrMode where
  | tcp
  | http
  | health
deriving DecidableEq

/-- Proxy lifecycle states (`PR_ST*`). -/
inductive PrState where
  | STNEW
  | STIDLE
  | STRUN
  | STPAUSED
  | STSTOPPED
  | STERROR
deriving DecidableEq

/-- Modelled from the spec: a parsed socket address (the result of the
external parser `str2sa`); `port = 0` means the textual address carried no
port. -/
structure SockAddr where
  host : String
  port : Nat
deriving DecidableEq

/-- Modelled from the spec: a scheduler task, carrying its processor name,
the id of the server used as its context, and its expiration tick. -/
structure ChkTask where
  process : String
  contextId : String
  expire : Nat
deriving DecidableEq

/-- A backend server record (`struct server`), restricted to the fields the
control-plane code reads or writes. -/
structure Server where
  id : String
  puid : Nat
  addr : SockAddr
  cookie : String
  cklen : Nat
  check_port : Nat
  state : Nat
  prev_state : Nat
  last_change : Nat
  inter : Nat
  fastinter : Nat
  downinter : Nat
  rise : Nat
  fall : Nat
  maxqueue : Nat
  minconn : Nat
  maxconn : Nat
  slowstart : Nat
  onerror : Nat
  consecutive_errors_limit : Nat
  uweight : Nat
  iweight : Nat
  eweight : Nat
  prev_eweight : Nat
  curfd : Int
  health : Nat
  check_status : Nat
  check : Option ChkTask
  check_start : Nat
  check_data : Bool
  proxyId : String
deriving DecidableEq

/-- The all-zero server record produced by `calloc`. -/
def zeroServer : Server where
  id := ""
  puid := 0
  addr := { host := "", port := 0 }
  cookie := ""
  cklen := 0
  check_port := 0
  state := 0
  prev_state := 0
  last_change := 0
  inter := 0
  fastinter := 0
  downinter := 0
  rise := 0
  fall := 0
  maxqueue := 0
  minconn := 0
  maxconn := 0
  slowstart := 0
  onerror := 0
  consecutive_errors_limit := 0
  uweight := 0
  iweight := 0
  eweight := 0
  prev_eweight := 0
  curfd := 0
  health := 0
  check_status := 0
  check := none
  check_start := 0
  check_data := false
  proxyId := ""

instance : Inhabited Server := ⟨zeroServer⟩

/-- Modelled from the spec: a listener handle; only the enabled/disabled
readiness toggle is observable to the control plane. -/
structure Listener where
  enabled : Bool
deriving DecidableEq

/-- Per-proxy cumulative counters. -/
structure PxCounters where
  cum_feconn : Nat
  cum_beconn : Nat
  beconn_max : Nat
deriving DecidableEq

/-- Per-proxy timeouts, stored in ticks. -/
structure Timeouts where
  client : Nat
  server : Nat
  connect : Nat
  check : Nat
  queue : Nat
  tarpit : Nat
  httpka : Nat
  httpreq : Nat
deriving DecidableEq

/-- A proxy record (`struct proxy`), restricted to the fields the
control-plane code reads or writes. -/
structure Proxy where
  id : String
  uuid : Nat
  cap : Nat
  mode : PrMode
  state : PrState
  maxconn : Nat
  fullconn : Nat
  conn_retries : Nat
  feconn : Nat
  beconn : Nat
  fe_sps_lim : Nat
  fe_sess_per_sec : Nat
  counters : PxCounters
  timeout : Timeouts
  options_cook_ins : Bool
  options_cook_ind : Bool
  options2_cook_psv : Bool
  options2_indepstr : Bool
  options2_rspbug_ok : Bool
  options2_rdpc_prst : Bool
  cookie_name : Option String
  cookie_len : Nat
  cookie_domain : Option String
  cookie_maxidle : Nat
  cookie_maxlife : Nat
  lbprm_algo : Nat
  lbprm_wmult : Nat
  lbprm_wdiv : Nat
  acl_requires : Nat
  nb_req_cap : Nat
  nb_rsp_cap : Nat
  req_cap_pool : Bool
  rsp_cap_pool : Bool
  hdr_idx_pool : Bool
  be_req_ana : Nat
  be_rsp_ana : Nat
  defsrv : Server
  defbe : Option Nat
  switching_rules : List Nat
  listen : List Listener
  srv : List Server
  stop_time : Nat
  grace : Nat
  last_change : Nat
  logfac1 : Int
  logfac2 : Int
deriving DecidableEq

/-- The global registry state: the `proxy` list and the `used_proxy_id`
tree (modelled as the list of ids in use). -/
structure Registry where
  proxies : List Proxy
  used_proxy_id : List Nat
deriving DecidableEq

/-- Helper for `findproxy`: scan the list keeping the current unique match,
returning `none` as soon as a second match is seen (the C loop returns NULL
on a duplicate). -/
def findproxyAux (name : String) (cap : Nat) :
    List Proxy → Option Proxy → Option Proxy
  | [], target => target
  | c :: rest, target =>
    if c.cap &&& cap ≠ cap ∨ c.id ≠ name then findproxyAux name cap rest target
    else
      match target with
      | none => findproxyAux name cap rest (some c)
      | some _ => none

/-- C `findproxy`: the unique proxy whose capabilities include `cap` and
whose id equals `name`; `none` when absent or ambiguous. -/
def findproxy (ps : List Proxy) (name : String) (cap : Nat) : Option Proxy :=
  findproxyAux name cap ps none

/-- Helper for `findserver`: unique-match scan over a server list. -/
def findserverAux (name : String) : List Server → Option Server → Option Server
  | [], target => target
  | c :: rest, target =>
    if c.id ≠ name then findserverAux name rest target
    else
      match target with
      | none => findserverAux name rest (some c)
      | some _ => none

/-- C `findserver`: the unique server of `px` whose id equals `name`;
`none` when `px` is absent, the name is absent, or the name is ambiguous. -/
def findserver (px : Option Proxy) (name : String) : Option Server :=
  match px with
  | none => none
  | some p => findserverAux name p.srv none

/-- Digit-accumulating core of C `atoi`. -/
def atoiDigits : List Char → Nat → Nat
  | c :: rest, acc =>
    if c.isDigit then atoiDigits rest (acc * 10 + (c.toNat - 48)) else acc
  | [], acc => acc

/-- C `atoi` on a list of characters: optional sign followed by leading
decimal digits; parsing stops at the first non-digit. -/
def atoiChars (cs : List Char) : Int :=
  match cs with
  | '-' :: rest => -(atoiDigits rest 0 : Int)
  | '+' :: rest => (atoiDigits rest 0 : Int)
  | _ => (atoiDigits cs 0 : Int)

/-- The numeric backend id taken from a lookup name: `atoi(name+1)` when the
name starts with a hash character, 0 otherwise. -/
def gbsPid (name : String) : Int :=
  match name.toList with
  | c :: rest => if c = '#' then atoiChars rest else 0
  | [] => 0

/-- The backend-matching test of `get_backend_server`: BE capability, then
uuid when a non-zero numeric id was parsed, else the literal name. -/
def gbsBkMatch (pid : Int) (bk_name : String) (p : Proxy) : Bool :=
  (p.cap &&& PR_CAP_BE != 0) &&
    (if pid ≠ 0 then ((p.uuid : Int) == pid) else (p.id == bk_name))

/-- The server-matching test of `get_backend_server`. -/
def gbsSvMatch (sid : Int) (sv_name : String) (s : Server) : Bool :=
  if sid ≠ 0 then ((s.puid : Int) == sid) else (s.id == sv_name)

/-- Result of `get_backend_server`.  `bk = none` models a NULL backend
out-pointer (nothing written); `bk = some v` is the value written through a
non-NULL pointer.  The server out-pointer is always written, so `sv` is the
value it holds on return. -/
structure GbsResult where
  ret : Nat
  bk : Option (Option Proxy)
  sv : Option Server
deriving DecidableEq

/-- C `get_backend_server`: writes NULL through the server out-pointer,
parses optional numeric ids, scans for the first matching BE-capable proxy,
then for the first matching server inside it.  `bkWanted` says whether the
caller passed a non-NULL backend out-pointer. -/
def get_backend_server (ps : List Proxy) (bk_name sv_name : String)
    (bkWanted : Bool) : GbsResult :=
  let pid := gbsPid bk_name
  let sid := gbsPid sv_name
  match ps.find? (gbsBkMatch pid bk_name) with
  | none =>
    { ret := 0, bk := if bkWanted then some none else none, sv := none }
  | some p =>
    match p.srv.find? (gbsSvMatch sid sv_name) with
    | none =>
      { ret := 0, bk := if bkWanted then some (some p) else none, sv := none }
    | some s =>
      { ret := 1, bk := if bkWanted then some (some p) else none, sv := some s }

/-- The all-zero proxy record produced by `calloc` (followed by the external
list initializer `init_new_proxy`, which leaves all modelled fields at their
zero values).  Mode 0 is TCP and state 0 is NEW in the C enums. -/
def zeroProxy : Proxy where
  id := ""
  uuid := 0
  cap := 0
  mode := PrMode.tcp
  state := PrState.STNEW
  maxconn := 0
  fullconn := 0
  conn_retries := 0
  feconn := 0
  beconn := 0
  fe_sps_lim := 0
  fe_sess_per_sec := 0
  counters := { cum_feconn := 0, cum_beconn := 0, beconn_max := 0 }
  timeout := { client := 0, server := 0, connect := 0, check := 0,
               queue := 0, tarpit := 0, httpka := 0, httpreq := 0 }
  options_cook_ins := false
  options_cook_ind := false
  options2_cook_psv := false
  options2_indepstr := false
  options2_rspbug_ok := false
  options2_rdpc_prst := false
  cookie_name := none
  cookie_len := 0
  cookie_domain := none
  cookie_maxidle := 0
  cookie_maxlife := 0
  lbprm_algo := 0
  lbprm_wmult := 0
  lbprm_wdiv := 0
  acl_requires := 0
  nb_req_cap := 0
  nb_rsp_cap := 0
  req_cap_pool := false
  rsp_cap_pool := false
  hdr_idx_pool := false
  be_req_ana := 0
  be_rsp_ana := 0
  defsrv := zeroServer
  defbe := none
  switching_rules := []
  listen := []
  srv := []
  stop_time := 0
  grace := 0
  last_change := 0
  logfac1 := 0
  logfac2 := 0

instance : Inhabited Proxy := ⟨zeroProxy⟩

/-- First-match characterization of `List.find?`: it returns `some x`
exactly when `x` sits at some index whose predecessors all fail the
predicate. -/
theorem find_first_char {α : Type} (f : α → Bool) (l : List α) (x : α) :
    l.find? f = some x ↔
      ∃ i, l[i]? = some x ∧ f x = true ∧
        ∀ (j : Nat) (y : α), j < i → l[j]? = some y → f y = false := by
  induction l with
  | nil => simp
  | cons a l ih =>
    by_cases hfa : f a = true
    · rw [List.find?_cons_of_pos _ hfa]
      constructor
      · intro h
        injection h with h
        subst h
        exact ⟨0, by simp, hfa, fun j y hj => by omega⟩
      · rintro ⟨i, hi, hfx, hprev⟩
        cases i with
        | zero =>
          simp only [List.getElem?_cons_zero, Option.some.injEq] at hi
          subst hi
          rfl
        | succ i =>
          have h0 := hprev 0 a (Nat.succ_pos i) (by simp)
          rw [hfa] at h0
          cases h0
    · have hfa' : f a = false := by
        cases h : f a
        · rfl
        · exact absurd h hfa
      rw [List.find?_cons_of_neg _ (by simp [hfa']), ih]
      constructor
      · rintro ⟨i, hi, hfx, hprev⟩
        refine ⟨i + 1, by simpa using hi, hfx, ?_⟩
        intro j y hj hy
        cases j with
        | zero =>
          simp only [List.getElem?_cons_zero, Option.some.injEq] at hy
          subst hy
          exact hfa'
        | succ j =>
          exact hprev j y (by omega) (by simpa using hy)
      · rintro ⟨i, hi, hfx, hprev⟩
        cases i with
        | zero =>
          simp only [List.getElem?_cons_zero, Option.some.injEq] at hi
          subst hi
          rw [hfa'] at hfx
          cases hfx
        | succ i =>
          refine ⟨i, by simpa using hi, hfx, ?_⟩
          intro j y hj hy
          exact hprev (j + 1) y (by omega) (by simpa using hy)

/-- First-match characterization of `List.find?` phrased through a
propositional version of the predicate. -/
theorem find_first_char_prop {α : Type} (f : α → Bool) (P : α → Prop)
    (hfP : ∀ a, f a = true ↔ P a) (l : List α) (x : α) :
    l.find? f = some x ↔
      ∃ i, l[i]? = some x ∧ P x ∧
        ∀ (j : Nat) (y : α), j < i → l[j]? = some y → ¬ P y := by
  rw [find_first_char]
  constructor
  · rintro ⟨i, hi, hfx, hprev⟩
    refine ⟨i, hi, (hfP x).mp hfx, fun j y hj hy hP => ?_⟩
    have := hprev j y hj hy
    rw [(hfP y).mpr hP] at this
    cases this
  · rintro ⟨i, hi, hPx, hprev⟩
    refine ⟨i, hi, (hfP x).mpr hPx, fun j y hj hy => ?_⟩
    cases h : f y
    · rfl
    · exact absurd ((hfP y).mp h) (hprev j y hj hy)

/-- Propositional form of the backend-matching test of
`get_backend_server`: BE capability, then uuid when the name carries a
non-zero numeric id, else the literal string. -/
def gbsBkMatchP (bk_name : String) (p : Proxy) : Prop :=
  p.cap &&& PR_CAP_BE ≠ 0 ∧
    (if gbsPid bk_name ≠ 0 then (p.uuid : Int) = gbsPid bk_name
     else p.id = bk_name)

/-- Propositional form of the server-matching test of
`get_backend_server`. -/
def gbsSvMatchP (sv_name : String) (s : Server) : Prop :=
  if gbsPid sv_name ≠ 0 then (s.puid : Int) = gbsPid sv_name
  else s.id = sv_name

theorem gbsBkMatch_iff (bk_name : String) (p : Proxy) :
    gbsBkMatch (gbsPid bk_name) bk_name p = true ↔ gbsBkMatchP bk_name p := by
  simp only [gbsBkMatch, gbsBkMatchP, Bool.and_eq_true, bne_iff_ne, ne_eq]
  split
  · simp
  · simp

theorem gbsSvMatch_iff (sv_name : String) (s : Server) :
    gbsSvMatch (gbsPid sv_name) sv_name s = true ↔ gbsSvMatchP sv_name s := by
  simp only [gbsSvMatch, gbsSvMatchP]
  split
  · simp
  · simp

/-- The existence of a matching backend containing a matching server,
required with first-match semantics on the backend scan. -/
def gbsFound (ps : List Proxy) (bk_name sv_name : String) : Prop :=
  ∃ i p, ps[i]? = some p ∧ gbsBkMatchP bk_name p ∧
    (∀ (j : Nat) (q : Proxy), j < i → ps[j]? = some q → ¬ gbsBkMatchP bk_name q) ∧
    ∃ s ∈ p.srv, gbsSvMatchP sv_name s

theorem gbs_ret01 (ps : List Proxy) (bk_name sv_name : String)
    (bkWanted : Bool) :
    (get_backend_server ps bk_name sv_name bkWanted).ret = 0 ∨
      (get_backend_server ps bk_name sv_name bkWanted).ret = 1 := by
  rcases hfp : ps.find? (gbsBkMatch (gbsPid bk_name) bk_name) with _ | p
  · left
    simp [get_backend_server, hfp]
  · rcases hfs : p.srv.find? (gbsSvMatch (gbsPid sv_name) sv_name) with _ | s
    · left
      simp [get_backend_server, hfp, hfs]
    · right
      simp [get_backend_server, hfp, hfs]

/-- Claim C7 (amended): `get_backend_server` returns 1 exactly when the
first proxy of the list with BE capability matching `bk_name` exists and
itself contains a server matching `sv_name`, and 0 otherwise; a name
beginning with a hash matches numerically only when its decimal value is
non-zero, else the whole name (hash included) is compared as a string. -/
theorem get_backend_server_first_match (ps : List Proxy)
    (bk_name sv_name : String) (bkWanted : Bool) :
    ((get_backend_server ps bk_name sv_name bkWanted).ret = 1 ↔
      gbsFound ps bk_name sv_name) ∧
    ((get_backend_server ps bk_name sv_name bkWanted).ret = 0 ↔
      ¬ gbsFound ps bk_name sv_name) := by
  have hchar := find_first_char_prop (gbsBkMatch (gbsPid bk_name) bk_name)
    (gbsBkMatchP bk_name) (gbsBkMatch_iff bk_name) ps
  have hmain : (get_backend_server ps bk_name sv_name bkWanted).ret = 1 ↔
      gbsFound ps bk_name sv_name := by
    rcases hfp : ps.find? (gbsBkMatch (gbsPid bk_name) bk_name) with _ | p
    · rw [show (get_backend_server ps bk_name sv_name bkWanted).ret = 0 by
        simp [get_backend_server, hfp]]
      constructor
      · intro h
        exact absurd h (by decide)
      · rintro ⟨i, p, hi, hP, hprev, _⟩
        have hsome : ps.find? (gbsBkMatch (gbsPid bk_name) bk_name) = some p := by
          rw [hchar p]
          exact ⟨i, hi, hP, hprev⟩
        simp [hfp] at hsome
    · rcases hfs : p.srv.find? (gbsSvMatch (gbsPid sv_name) sv_name) with _ | s
      · rw [show (get_backend_server ps bk_name sv_name bkWanted).ret = 0 by
          simp [get_backend_server, hfp, hfs]]
        constructor
        · intro h
          exact absurd h (by decide)
        · rintro ⟨i, q, hi, hP, hprev, s, hs, hsP⟩
          have hq : ps.find? (gbsBkMatch (gbsPid bk_name) bk_name) = some q := by
            rw [hchar q]
            exact ⟨i, hi, hP, hprev⟩
          rw [hfp] at hq
          injection hq with hq
          subst hq
          have hss : (p.srv.find? (gbsSvMatch (gbsPid sv_name) sv_name)).isSome := by
            rw [List.find?_isSome]
            exact ⟨s, hs, (gbsSvMatch_iff sv_name s).mpr hsP⟩
          rw [hfs] at hss
          simp at hss
      · rw [show (get_backend_server ps bk_name sv_name bkWanted).ret = 1 by
          simp [get_backend_server, hfp, hfs]]
        constructor
        · intro _
          obtain ⟨i, hi, hP, hprev⟩ := (hchar p).mp hfp
          exact ⟨i, p, hi, hP, hprev, s, List.mem_of_find?_eq_some hfs,
            (gbsSvMatch_iff sv_name s).mp (List.find?_some hfs)⟩
        · intro _
          rfl
  refine ⟨hmain, ?_⟩
  rcases gbs_ret01 ps bk_name sv_name bkWanted with h0 | h1
  · rw [h0]
    constructor
    · intro _ hF
      have h1' := hmain.mpr hF
      rw [h0] at h1'
      exact absurd h1' (by decide)
    · intro _
      rfl
  · rw [h1]
    constructor
    · intro h
      exact absurd h (by decide)
    · intro hnF
      exact absurd (hmain.mp h1) hnF

/-- Concrete data: a server named s. -/
def gbsCexSrv : Server := { zeroServer with id := "s" }

/-- Concrete data: a BE-capable proxy named b with no servers. -/
def gbsCexP1 : Proxy :=
  { zeroProxy with
      id := "b"
      cap := PR_CAP_BE ||| PR_CAP_RS
      uuid := 1 }

/-- Concrete data: a second BE-capable proxy named b holding the server. -/
def gbsCexP2 : Proxy :=
  { zeroProxy with
      id := "b"
      cap := PR_CAP_BE ||| PR_CAP_RS
      uuid := 2
      srv := [gbsCexSrv] }

/-- Concrete registry with two same-named BE proxies. -/
def gbsCexPs : List Proxy := [gbsCexP1, gbsCexP2]

/-- Claim C7 (counterexample): a BE-capable proxy matching the name exists
and contains a matching server, yet `get_backend_server` returns 0, because
the scan commits to the first matching proxy (which lacks the server). -/
theorem get_backend_server_exists_cex :
    (get_backend_server gbsCexPs ("b") ("s") true).ret = 0 ∧
    ∃ p ∈ gbsCexPs, p.cap &&& PR_CAP_BE ≠ 0 ∧ p.id = "b" ∧
      ∃ s ∈ p.srv, s.id = "s" := by
  constructor
  · rfl
  · exact ⟨gbsCexP2, by simp [gbsCexPs], by decide, rfl,
      gbsCexSrv, by simp [gbsCexP2], rfl⟩

/-- Witness for the amended C7 theorem at a concrete registry. -/
theorem get_backend_server_first_match_w :
    (get_backend_server [gbsCexP2] ("b") ("s") true).ret = 1 :=
  (get_backend_server_first_match [gbsCexP2] ("b") ("s") true).1.mpr
    ⟨0, gbsCexP2, rfl,
      ⟨by decide, by
        have h : gbsPid ("b") = 0 := rfl
        rw [if_neg (by simp [h])]
        rfl⟩,
      fun j q hj _ => by omega,
      gbsCexSrv, by simp [gbsCexP2], by
        have h : gbsPid ("s") = 0 := rfl
        rw [gbsSvMatchP, if_neg (by simp [h])]
        rfl⟩

/-- Claim C10: the server out-parameter is written on every path (NULL
unless full success), while the backend out-parameter, when passed, is set
to the found backend even when the server lookup then fails, and to NULL
when the backend itself is missing. -/
theorem get_backend_server_out_params (ps : List Proxy)
    (bk_name sv_name : String) (bkWanted : Bool) :
    ((get_backend_server ps bk_name sv_name bkWanted).ret = 0 →
      (get_backend_server ps bk_name sv_name bkWanted).sv = none) ∧
    (ps.find? (gbsBkMatch (gbsPid bk_name) bk_name) = none →
      (get_backend_server ps bk_name sv_name bkWanted).ret = 0 ∧
      (get_backend_server ps bk_name sv_name bkWanted).sv = none ∧
      (get_backend_server ps bk_name sv_name bkWanted).bk
        = (if bkWanted then some none else none)) ∧
    (∀ p, ps.find? (gbsBkMatch (gbsPid bk_name) bk_name) = some p →
      p.srv.find? (gbsSvMatch (gbsPid sv_name) sv_name) = none →
      (get_backend_server ps bk_name sv_name bkWanted).ret = 0 ∧
      (get_backend_server ps bk_name sv_name bkWanted).sv = none ∧
      (get_backend_server ps bk_name sv_name bkWanted).bk
        = (if bkWanted then some (some p) else none)) := by
  rcases hfp : ps.find? (gbsBkMatch (gbsPid bk_name) bk_name) with _ | p
  · refine ⟨fun _ => ?_, fun _ => ⟨?_, ?_, ?_⟩, fun q hq _ => ?_⟩
    · simp [get_backend_server, hfp]
    · simp [get_backend_server, hfp]
    · simp [get_backend_server, hfp]
    · simp [get_backend_server, hfp]
    · exact Option.noConfusion hq
  · rcases hfs : p.srv.find? (gbsSvMatch (gbsPid sv_name) sv_name) with _ | s
    · refine ⟨fun _ => ?_,
        fun h => Option.noConfusion h,
        fun q hq hqs => ?_⟩
      · simp [get_backend_server, hfp, hfs]
      · injection hq with hpq
        subst hpq
        refine ⟨?_, ?_, ?_⟩ <;> simp [get_backend_server, hfp, hfs]
    · refine ⟨fun h => ?_,
        fun h => Option.noConfusion h,
        fun q hq hqs => ?_⟩
      · rw [show (get_backend_server ps bk_name sv_name bkWanted).ret = 1 by
          simp [get_backend_server, hfp, hfs]] at h
        exact absurd h (by decide)
      · injection hq with hpq
        subst hpq
        rw [hfs] at hqs
        exact Option.noConfusion hqs

/-- Witness for C10 at the empty registry. -/
theorem get_backend_server_out_params_w :
    (get_backend_server ([] : List Proxy) ("x") ("y") false).ret = 0 ∧
    (get_backend_server ([] : List Proxy) ("x") ("y") false).sv = none ∧
    (get_backend_server ([] : List Proxy) ("x") ("y") false).bk = none := by
  have h := (get_backend_server_out_params ([] : List Proxy)
    ("x") ("y") false).2.1 rfl
  simpa using h

/-- External default: runtime connection retries (`CONN_RETRIES`). -/
def CONN_RETRIES : Nat := 3

/-- External default: per-proxy maxconn for runtime-created proxies. -/
def cfg_maxpconn : Nat := 2000

/-- External default: health-check interval in ms (`DEF_CHKINTR`). -/
def DEF_CHKINTR : Nat := 2000

/-- External default: checks to rise (`DEF_RISETIME`). -/
def DEF_RISETIME : Nat := 2

/-- External default: checks to fall (`DEF_FALLTIME`). -/
def DEF_FALLTIME : Nat := 3

/-- External default: on-error behaviour (`DEF_HANA_ONERR`). -/
def DEF_HANA_ONERR : Nat := 0

/-- External default: consecutive-errors limit (`DEF_HANA_ERRLIMIT`). -/
def DEF_HANA_ERRLIMIT : Nat := 10

/-- External tuning constant: maximum HTTP header count. -/
def MAX_HTTP_HDR : Nat := 101

/-- External ACL bit: requires any layer-7 data. -/
def ACL_USE_L7_ANY : Nat := 4096

/-- LB algorithm bit encoding (external header; concrete values are
representative, only distinctness and disjointness of the masks matter). -/
def BE_LB_KIND_RR : Nat := 0x10000

/-- LB kind: least-connections. -/
def BE_LB_KIND_LC : Nat := 0x20000

/-- LB kind: hash-based. -/
def BE_LB_KIND_HI : Nat := 0x30000

/-- Mask covering the LB kind bits. -/
def BE_LB_KIND : Nat := 0x30000

/-- Mask covering the LB parameter bits. -/
def BE_LB_PARM : Nat := 0xFF

/-- LB parameter: static round-robin. -/
def BE_LB_RR_STATIC : Nat := 0x01

/-- Mask covering the LB hash-type bits. -/
def BE_LB_HASH_TYPE : Nat := 0xC00

/-- LB hash type: consistent hashing. -/
def BE_LB_HASH_CONS : Nat := 0x400

/-- LB lookup structure: map. -/
def BE_LB_LKUP_MAP : Nat := 0x100000

/-- LB lookup structure: weighted round-robin tree. -/
def BE_LB_LKUP_RRTREE : Nat := 0x200000

/-- LB lookup structure: least-connections tree. -/
def BE_LB_LKUP_LCTREE : Nat := 0x300000

/-- LB lookup structure: consistent-hash tree. -/
def BE_LB_LKUP_CHTREE : Nat := 0x400000

/-- Mask covering the LB lookup-structure bits. -/
def BE_LB_LKUP : Nat := 0x700000

/-- LB flag: dynamic weight propagation. -/
def BE_LB_PROP_DYN : Nat := 0x800000

/-- The round-robin algorithm descriptor (dynamic round-robin). -/
def BE_LB_ALGO_RR : Nat := BE_LB_KIND_RR

/-- Request analyser bit: wait for HTTP request. -/
def AN_REQ_WAIT_HTTP : Nat := 1

/-- Request analyser bit: inner HTTP processing. -/
def AN_REQ_HTTP_INNER : Nat := 2

/-- Request analyser bit: backend-side HTTP processing. -/
def AN_REQ_HTTP_PROCESS_BE : Nat := 4

/-- Request analyser bit: RDP cookie persistence. -/
def AN_REQ_PRST_RDP_COOKIE : Nat := 8

/-- Response analyser bit: wait for HTTP response. -/
def AN_RES_WAIT_HTTP : Nat := 1

/-- Response analyser bit: backend-side HTTP response processing. -/
def AN_RES_HTTP_PROCESS_BE : Nat := 2

/-- Bit complement within a 32-bit machine integer, used to model the C
idiom `x & ~mask`. -/
def mask32not (m : Nat) : Nat := 0xFFFFFFFF ^^^ m

/-- Fueled search for the next free id. -/
def nextIdAux : Nat → List Nat → Nat → Nat
  | 0, _, k => k
  | fuel + 1, used, k =>
    if k ∈ used then nextIdAux fuel used (k + 1) else k

/-- Modelled from the spec (Identity Registry): `get_next_id` returns the
smallest integer at least `start` not present in the in-use set. -/
def get_next_id (used : List Nat) (start : Nat) : Nat :=
  nextIdAux (used.length + 1) used start

/-- The duplicate-name rejection test of `addbackend`, with the new
capability set instantiated to its constant value `BE|RS` exactly as the C
expression reads. -/
def abCollides (id : String) (c : Proxy) : Bool :=
  (c.id == id) &&
  (((PR_CAP_BE ||| PR_CAP_RS) != (PR_CAP_FE ||| PR_CAP_RS)) ||
    (c.cap != (PR_CAP_BE ||| PR_CAP_RS))) &&
  (((PR_CAP_BE ||| PR_CAP_RS) != (PR_CAP_BE ||| PR_CAP_RS)) ||
    (c.cap != (PR_CAP_FE ||| PR_CAP_RS)))

theorem abCollides_iff (id : String) (c : Proxy) :
    abCollides id c = true ↔
      c.id = id ∧ c.cap ≠ (PR_CAP_FE ||| PR_CAP_RS) := by
  simp [abCollides, PR_CAP_FE, PR_CAP_BE, PR_CAP_RS, and_assoc]

/-- The C switch in `addbackend` that installs the lookup structure
matching the configured LB kind (the external initializers only touch LB
state outside this model). -/
def lbInitSwitch (p : Proxy) : Proxy :=
  if p.lbprm_algo &&& BE_LB_KIND = BE_LB_KIND_RR then
    if p.lbprm_algo &&& BE_LB_PARM = BE_LB_RR_STATIC then
      { p with lbprm_algo := p.lbprm_algo ||| BE_LB_LKUP_MAP }
    else
      { p with lbprm_algo :=
          p.lbprm_algo ||| (BE_LB_LKUP_RRTREE ||| BE_LB_PROP_DYN) }
  else if p.lbprm_algo &&& BE_LB_KIND = BE_LB_KIND_LC then
    { p with lbprm_algo :=
        p.lbprm_algo ||| (BE_LB_LKUP_LCTREE ||| BE_LB_PROP_DYN) }
  else if p.lbprm_algo &&& BE_LB_KIND = BE_LB_KIND_HI then
    if p.lbprm_algo &&& BE_LB_HASH_TYPE = BE_LB_HASH_CONS then
      { p with lbprm_algo :=
          p.lbprm_algo ||| (BE_LB_LKUP_CHTREE ||| BE_LB_PROP_DYN) }
    else
      { p with lbprm_algo := p.lbprm_algo ||| BE_LB_LKUP_MAP }
  else p

/-- The fully initialized proxy record built by the success path of
`addbackend` (the body of the C function after the rejection checks). -/
def abNewProxy (now_sec : Nat) (st : Registry) (id : String) : Proxy :=
  let d0 := zeroServer
  let p1 := { zeroProxy with
    mode := PrMode.tcp
    state := PrState.STNEW
    maxconn := cfg_maxpconn
    conn_retries := CONN_RETRIES
    logfac1 := -1
    logfac2 := -1
    defsrv := { d0 with
      inter := DEF_CHKINTR
      fastinter := 0
      downinter := 0
      rise := DEF_RISETIME
      fall := DEF_FALLTIME
      check_port := 0
      maxqueue := 0
      minconn := 0
      maxconn := 0
      slowstart := 0
      onerror := DEF_HANA_ONERR
      consecutive_errors_limit := DEF_HANA_ERRLIMIT
      uweight := 1
      iweight := 1 } }
  let p2 := { p1 with
    last_change := now_sec
    id := id
    cap := PR_CAP_BE ||| PR_CAP_RS
    defsrv := { p1.defsrv with id := "default-server" } }
  let p3 := { p2 with
    mode := PrMode.http
    options2_cook_psv := false
    cookie_maxidle := 0
    cookie_maxlife := 0
    cookie_domain := none
    cookie_name := some ("SERVERID")
    cookie_len := 8
    options_cook_ins := true
    options_cook_ind := true
    lbprm_algo := p2.lbprm_algo ||| BE_LB_ALGO_RR }
  let npid := get_next_id st.used_proxy_id 1
  let p4 := { p3 with
    uuid := npid
    acl_requires := p3.acl_requires ||| ACL_USE_L7_ANY }
  let p5 := { p4 with
    req_cap_pool := if p4.nb_req_cap ≠ 0 then true else p4.req_cap_pool
    rsp_cap_pool := if p4.nb_rsp_cap ≠ 0 then true else p4.rsp_cap_pool
    hdr_idx_pool := true }
  let p6 := { p5 with
    fullconn := if p5.fullconn = 0 then p5.maxconn else p5.fullconn }
  let p7 := { p6 with
    lbprm_wmult := 1
    lbprm_wdiv := 1
    lbprm_algo := p6.lbprm_algo &&& mask32not (BE_LB_LKUP ||| BE_LB_PROP_DYN) }
  let p8 := lbInitSwitch p7
  let p9 :=
    if p8.mode = PrMode.http then
      { p8 with
        be_req_ana := p8.be_req_ana |||
          (AN_REQ_WAIT_HTTP ||| AN_REQ_HTTP_INNER ||| AN_REQ_HTTP_PROCESS_BE)
        be_rsp_ana := p8.be_rsp_ana |||
          (AN_RES_WAIT_HTTP ||| AN_RES_HTTP_PROCESS_BE) }
    else p8
  if p9.options2_rdpc_prst then
    { p9 with be_req_ana := p9.be_req_ana ||| AN_REQ_PRST_RDP_COOKIE }
  else p9

/-- C `addbackend`: after the empty-name, invalid-character and
duplicate-name checks, create a BE|RS proxy with hard-coded runtime
defaults (HTTP mode, SERVERID insert+indirect cookie, round-robin LB),
register a fresh uuid and prepend it to the registry.  `ic` is the external
`invalid_char` checker (first offending character, if any); `now_sec` the
wall-clock second.  Allocation is modelled as always succeeding. -/
def addbackend (ic : String → Option Char) (now_sec : Nat) (st : Registry)
    (id : String) : Nat × Registry :=
  if id = "" then (1, st)
  else if (ic id).isSome then (1, st)
  else if st.proxies.any (abCollides id) then (1, st)
  else
    (0, { proxies := abNewProxy now_sec st id :: st.proxies,
          used_proxy_id := get_next_id st.used_proxy_id 1 :: st.used_proxy_id })

theorem lbInitSwitch_id (p : Proxy) : (lbInitSwitch p).id = p.id := by
  unfold lbInitSwitch
  repeat' split
  all_goals rfl

theorem lbInitSwitch_cap (p : Proxy) : (lbInitSwitch p).cap = p.cap := by
  unfold lbInitSwitch
  repeat' split
  all_goals rfl

theorem abNewProxy_id (now_sec : Nat) (st : Registry) (id : String) :
    (abNewProxy now_sec st id).id = id := by
  unfold abNewProxy
  simp [apply_ite Proxy.id, lbInitSwitch_id]

theorem abNewProxy_cap (now_sec : Nat) (st : Registry) (id : String) :
    (abNewProxy now_sec st id).cap = PR_CAP_BE ||| PR_CAP_RS := by
  unfold abNewProxy
  simp [apply_ite Proxy.cap, lbInitSwitch_cap]

theorem addbackend_fail_of_any (ic : String → Option Char) (now_sec : Nat)
    (st : Registry) (id : String) (h1 : ¬ id = "")
    (h2 : ¬ (ic id).isSome = true)
    (h3 : st.proxies.any (abCollides id) = true) :
    (addbackend ic now_sec st id).1 ≠ 0 := by
  unfold addbackend
  rw [if_neg h1, if_neg h2, if_pos h3]
  simp

/-- Claim C3: `addbackend(name)` fails exactly when the name is empty,
contains an invalid character, or collides with an existing proxy whose
capability set is not FE|RS (the only permitted collision, since the new
proxy is always BE|RS, is an existing FE|RS frontend); consequently a
second `addbackend` with the same name always fails, the first having
created a BE|RS proxy. -/
theorem addbackend_name_rules (ic : String → Option Char) (now_sec : Nat)
    (st : Registry) (id : String) :
    ((addbackend ic now_sec st id).1 ≠ 0 ↔
      (id = "" ∨ (ic id).isSome = true ∨
        ∃ p ∈ st.proxies, p.id = id ∧
          p.cap ≠ (PR_CAP_FE ||| PR_CAP_RS))) ∧
    ((addbackend ic now_sec st id).1 = 0 →
      (addbackend ic now_sec (addbackend ic now_sec st id).2 id).1 ≠ 0) := by
  have hguard1 : (addbackend ic now_sec st id).1 = 0 → ¬ id = "" := by
    intro hs h
    unfold addbackend at hs
    rw [if_pos h] at hs
    simp at hs
  have hguard2 : (addbackend ic now_sec st id).1 = 0 →
      ¬ (ic id).isSome = true := by
    intro hs h
    by_cases h1 : id = ""
    · exact hguard1 hs h1
    · unfold addbackend at hs
      rw [if_neg h1, if_pos h] at hs
      simp at hs
  constructor
  · by_cases h1 : id = ""
    · unfold addbackend
      rw [if_pos h1]
      simp [h1]
    · by_cases h2 : (ic id).isSome = true
      · unfold addbackend
        rw [if_neg h1, if_pos h2]
        simp [h2]
      · by_cases h3 : st.proxies.any (abCollides id) = true
        · unfold addbackend
          rw [if_neg h1, if_neg h2, if_pos h3]
          obtain ⟨p, hp, hcol⟩ := List.any_eq_true.mp h3
          rw [abCollides_iff] at hcol
          constructor
          · intro _
            exact Or.inr (Or.inr ⟨p, hp, hcol⟩)
          · intro _
            simp
        · unfold addbackend
          rw [if_neg h1, if_neg h2, if_neg h3]
          constructor
          · intro h
            exact absurd rfl h
          · rintro (h | h | ⟨p, hp, hid, hcap⟩)
            · exact absurd h h1
            · exact absurd h h2
            · exact absurd
                (List.any_eq_true.mpr
                  ⟨p, hp, (abCollides_iff id p).mpr ⟨hid, hcap⟩⟩) h3
  · intro hs
    have h1 := hguard1 hs
    have h2 := hguard2 hs
    have hshape : (addbackend ic now_sec st id).2.proxies
        = abNewProxy now_sec st id :: st.proxies := by
      by_cases h3 : st.proxies.any (abCollides id) = true
      · unfold addbackend at hs
        rw [if_neg h1, if_neg h2, if_pos h3] at hs
        simp at hs
      · unfold addbackend
        rw [if_neg h1, if_neg h2, if_neg h3]
    have hany : (addbackend ic now_sec st id).2.proxies.any
        (abCollides id) = true := by
      refine List.any_eq_true.mpr ⟨abNewProxy now_sec st id, ?_, ?_⟩
      · rw [hshape]
        exact List.mem_cons_self _ _
      · refine (abCollides_iff id _).mpr ⟨abNewProxy_id now_sec st id, ?_⟩
        rw [abNewProxy_cap]
        decide
    exact addbackend_fail_of_any ic now_sec (addbackend ic now_sec st id).2
      id h1 h2 hany

/-- Witness for C3: on the empty registry, creating backend api succeeds
and creating it again fails. -/
theorem addbackend_name_rules_w :
    (addbackend (fun _ => none) 0 { proxies := [], used_proxy_id := [] }
      ("api")).1 = 0 ∧
    (addbackend (fun _ => none) 0
      (addbackend (fun _ => none) 0 { proxies := [], used_proxy_id := [] }
        ("api")).2 ("api")).1 ≠ 0 := by
  have hs : (addbackend (fun _ => none) 0
      { proxies := [], used_proxy_id := [] } ("api")).1 = 0 := by
    unfold addbackend
    simp
  exact ⟨hs,
    (addbackend_name_rules (fun _ => none) 0
      { proxies := [], used_proxy_id := [] } ("api")).2 hs⟩

/-- Modelled from the spec (Time service): `tick_add` adds a delay to a
tick; tick wraparound and the eternity tick are not modelled. -/
def tick_add (now delay : Nat) : Nat := now + delay

/-- Modelled from the spec (Time service): `tick_first` returns the earlier
of two wakeup dates. -/
def tick_first (a b : Nat) : Nat := min a b

/-- Modelled from the spec (Time service): `tick_remain` returns the time
left before expiry, 0 once expired. -/
def tick_remain (now exp : Nat) : Nat := exp - now

/-- Modelled from the spec (health-check helper): `srv_getinter` yields the
check interval of a server, so that a fresh check expires at
now + interval. -/
def srv_getinter (s : Server) : Nat := s.inter

/-- Environment of `addserver`/`delserver`: the external address parser
`str2sa`, the outcome of the three allocations, and the clocks. -/
structure SrvEnv where
  str2sa : String → Option SockAddr
  srvAllocOk : Bool
  chkAllocOk : Bool
  taskNewOk : Bool
  now_sec : Nat
  now_ms : Nat

/-- Observable calls into the external scheduler and health-check
subsystem, in program order. -/
inductive SrvEvent where
  | taskQueued (process : String) (contextId : String) (expire : Nat)
  | setServerUp (id : String)
  | setServerDown (id : String)
  | taskDeleted (id : String)
  | taskFreed (id : String)
deriving DecidableEq

/-- Replace the proxy entry matched by `findproxy pxid cap` with `p'`.
The C code mutates through the pointer `findproxy` returned; since a
successful `findproxy` guarantees exactly one entry matches the criterion,
mapping over the list touches exactly that entry. -/
def replaceProxy (ps : List Proxy) (pxid : String) (cap : Nat)
    (p' : Proxy) : List Proxy :=
  ps.map (fun c => if c.cap &&& cap = cap ∧ c.id = pxid then p' else c)

/-- C `addserver`: find the BE backend and check the name is free, parse
the address (port defaulting to 80), allocate the server, check buffer and
task, prepend the server to the backend's list with defaults taken from
`defsrv` (except `maxconn`, taken from the backend's own `maxconn`), wire
and queue the check task, and call `set_server_up`.  The returned event
list records the external scheduler/health-check calls in order. -/
def addserver (env : SrvEnv) (st : Registry)
    (pxid svid addr cookie : String) :
    Option Server × Registry × List SrvEvent :=
  match findproxy st.proxies pxid PR_CAP_BE with
  | none => (none, st, [])
  | some px =>
    match findserver (some px) svid with
    | some _ => (none, st, [])
    | none =>
      if env.srvAllocOk = false then (none, st, [])
      else
        match env.str2sa addr with
        | none => (none, st, [])
        | some sk =>
          if env.chkAllocOk = false then (none, st, [])
          else if env.taskNewOk = false then (none, st, [])
          else
            let port := if sk.port ≠ 0 then sk.port else 80
            let newsrv0 : Server := {
              id := svid
              puid := 0
              addr := { host := sk.host, port := port }
              cookie := cookie
              cklen := cookie.length
              check_port := port
              state := SRV_MAINTAIN ||| SRV_CHECKED
              prev_state := SRV_MAINTAIN
              last_change := env.now_sec
              inter := px.defsrv.inter
              fastinter := px.defsrv.fastinter
              downinter := px.defsrv.downinter
              rise := px.defsrv.rise
              fall := px.defsrv.fall
              maxqueue := px.defsrv.maxqueue
              minconn := px.defsrv.minconn
              maxconn := px.maxconn
              slowstart := px.defsrv.slowstart
              onerror := px.defsrv.onerror
              consecutive_errors_limit := px.defsrv.consecutive_errors_limit
              uweight := px.defsrv.iweight
              iweight := px.defsrv.iweight
              eweight := px.defsrv.iweight * BE_WEIGHT_SCALE
              prev_eweight := px.defsrv.iweight * BE_WEIGHT_SCALE
              curfd := -1
              health := px.defsrv.rise
              check_status := HCHK_STATUS_INI
              check := none
              check_start := env.now_sec
              check_data := true
              proxyId := px.id }
            let t : ChkTask := {
              process := "process_chk"
              contextId := svid
              expire := tick_add env.now_ms (srv_getinter newsrv0) }
            let newsrv := { newsrv0 with check := some t }
            let px' := { px with srv := newsrv :: px.srv }
            (some newsrv,
              { st with proxies := replaceProxy st.proxies pxid PR_CAP_BE px' },
              [SrvEvent.taskQueued t.process t.contextId t.expire,
               SrvEvent.setServerUp svid])

/-- The success-path postcondition of `addserver` (amended claim C2): the
new server is prepended to the found backend, port defaults to 80, all
defaults are copied from `defsrv` except `maxconn` which is copied from the
backend's own `maxconn`, state is MAINTAIN|CHECKED, health equals rise,
eweight is uweight scaled, the check task is wired to the health-check
processor with the server as context and expiry now + interval and queued,
and `set_server_up` is invoked before returning. -/
def addserverOk (env : SrvEnv) (st : Registry)
    (pxid svid addr cookie : String) (px : Proxy) (sk : SockAddr) : Prop :=
  ∃ s, (addserver env st pxid svid addr cookie).1 = some s ∧
    (addserver env st pxid svid addr cookie).2.1.proxies
      = replaceProxy st.proxies pxid PR_CAP_BE { px with srv := s :: px.srv } ∧
    s.id = svid ∧
    s.addr.port = (if sk.port ≠ 0 then sk.port else 80) ∧
    s.cookie = cookie ∧
    s.cklen = cookie.length ∧
    s.inter = px.defsrv.inter ∧
    s.fastinter = px.defsrv.fastinter ∧
    s.downinter = px.defsrv.downinter ∧
    s.rise = px.defsrv.rise ∧
    s.fall = px.defsrv.fall ∧
    s.maxqueue = px.defsrv.maxqueue ∧
    s.minconn = px.defsrv.minconn ∧
    s.slowstart = px.defsrv.slowstart ∧
    s.onerror = px.defsrv.onerror ∧
    s.consecutive_errors_limit = px.defsrv.consecutive_errors_limit ∧
    s.uweight = px.defsrv.iweight ∧
    s.iweight = px.defsrv.iweight ∧
    s.maxconn = px.maxconn ∧
    s.state = (SRV_MAINTAIN ||| SRV_CHECKED) ∧
    s.health = s.rise ∧
    s.eweight = s.uweight * BE_WEIGHT_SCALE ∧
    (∃ t, s.check = some t ∧ t.process = "process_chk" ∧
      t.contextId = svid ∧
      t.expire = tick_add env.now_ms (srv_getinter s)) ∧
    (addserver env st pxid svid addr cookie).2.2
      = [SrvEvent.taskQueued ("process_chk") svid
           (tick_add env.now_ms s.inter),
         SrvEvent.setServerUp svid]

/-- Claim C2 (amended): every successful `addserver` on an existing BE
backend with a free server name satisfies `addserverOk`; in particular all
defaults come from `defsrv` except `maxconn`, which the code copies from
the backend's `maxconn`. -/
theorem addserver_success (env : SrvEnv) (st : Registry)
    (pxid svid addr cookie : String) (px : Proxy) (sk : SockAddr)
    (hfp : findproxy st.proxies pxid PR_CAP_BE = some px)
    (hfs : findserver (some px) svid = none)
    (hsk : env.str2sa addr = some sk)
    (ha1 : env.srvAllocOk = true)
    (ha2 : env.chkAllocOk = true)
    (ha3 : env.taskNewOk = true) :
    addserverOk env st pxid svid addr cookie px sk := by
  unfold addserverOk addserver
  simp only [hfp, hfs, hsk, ha1, ha2, ha3, Bool.true_eq_false, if_false]
  exact ⟨_, rfl, rfl, rfl, rfl, rfl, rfl, rfl, rfl, rfl, rfl, rfl, rfl,
    rfl, rfl, rfl, rfl, rfl, rfl, rfl, rfl, rfl, rfl,
    ⟨_, rfl, rfl, rfl, rfl⟩, rfl⟩

/-- Concrete environment: a parser resolving any address to
10.0.0.1:8080, all allocations succeeding. -/
def asEnv0 : SrvEnv where
  str2sa := fun _ => some { host := "10.0.0.1", port := 8080 }
  srvAllocOk := true
  chkAllocOk := true
  taskNewOk := true
  now_sec := 5
  now_ms := 1000

/-- Concrete backend with maxconn 100 and the runtime defsrv defaults. -/
def asPx0 : Proxy :=
  { zeroProxy with
      id := "b"
      cap := PR_CAP_BE ||| PR_CAP_RS
      uuid := 1
      maxconn := 100
      defsrv := { zeroServer with
        inter := 2000
        rise := 2
        fall := 3
        iweight := 1 } }

/-- Concrete registry holding that backend. -/
def asSt0 : Registry := { proxies := [asPx0], used_proxy_id := [1] }

/-- Claim C2 (counterexample): the newly added server's `maxconn` is the
backend's `maxconn` (100), not the value found in the backend's `defsrv`
(0), refuting the claim that all per-server defaults are initialized from
`defsrv`. -/
theorem addserver_defsrv_cex :
    ((addserver asEnv0 asSt0 ("b") ("s1") ("10.0.0.1:8080") ("c1")).1.map
        Server.maxconn)
      ≠ ((findproxy asSt0.proxies ("b") PR_CAP_BE).map
        (fun p => p.defsrv.maxconn)) := by
  decide

/-- Witness for the amended C2 theorem at a concrete backend. -/
theorem addserver_success_w :
    addserverOk asEnv0 asSt0 ("b") ("s1") ("10.0.0.1:8080") ("c1") asPx0
      { host := "10.0.0.1", port := 8080 } :=
  addserver_success asEnv0 asSt0 ("b") ("s1") ("10.0.0.1:8080") ("c1")
    asPx0 { host := "10.0.0.1", port := 8080 } rfl rfl rfl rfl rfl rfl

theorem findserverAux_some_none (name : String) (x : Server) :
    ∀ l : List Server, 1 ≤ l.countP (fun s => s.id == name) →
      findserverAux name l (some x) = none := by
  intro l
  induction l with
  | nil => intro h; simp at h
  | cons a l ih =>
    intro h
    by_cases ha : a.id = name
    · simp [findserverAux, ha]
    · have hb : (a.id == name) = false := by simpa using ha
      rw [List.countP_cons, hb] at h
      simp only [Bool.false_eq_true, if_false] at h
      simp only [findserverAux]
      rw [if_pos ha]
      exact ih (by omega)

theorem findserverAux_dup (name : String) :
    ∀ l : List Server, 2 ≤ l.countP (fun s => s.id == name) →
      findserverAux name l none = none := by
  intro l
  induction l with
  | nil => intro h; simp at h
  | cons a l ih =>
    intro h
    by_cases ha : a.id = name
    · have hb : (a.id == name) = true := by simpa using ha
      rw [List.countP_cons, hb] at h
      simp only [eq_self_iff_true, if_true] at h
      simp only [findserverAux]
      rw [if_neg (show ¬ a.id ≠ name from fun hne => hne ha)]
      exact findserverAux_some_none name a l (by omega)
    · have hb : (a.id == name) = false := by simpa using ha
      rw [List.countP_cons, hb] at h
      simp only [Bool.false_eq_true, if_false] at h
      simp only [findserverAux]
      rw [if_pos ha]
      exact ih (by omega)

/-- Claim C9: when a backend already holds two or more servers named `n`,
`findserver` reports the ambiguous name as absent, so `addserver` passes
its duplicate check and (absent allocation or address failures) adds yet
another server named `n`, raising the count by one. -/
theorem addserver_dup_name (env : SrvEnv) (st : Registry)
    (pxid n addr cookie : String) (px : Proxy) (sk : SockAddr)
    (hfp : findproxy st.proxies pxid PR_CAP_BE = some px)
    (hdup : 2 ≤ px.srv.countP (fun s => s.id == n))
    (hsk : env.str2sa addr = some sk)
    (ha1 : env.srvAllocOk = true)
    (ha2 : env.chkAllocOk = true)
    (ha3 : env.taskNewOk = true) :
    findserver (some px) n = none ∧
    ∃ s, (addserver env st pxid n addr cookie).1 = some s ∧ s.id = n ∧
      ∃ px', (addserver env st pxid n addr cookie).2.1.proxies
          = replaceProxy st.proxies pxid PR_CAP_BE px' ∧
        px'.srv.countP (fun s => s.id == n)
          = px.srv.countP (fun s => s.id == n) + 1 := by
  have hfs : findserver (some px) n = none := findserverAux_dup n px.srv hdup
  refine ⟨hfs, ?_⟩
  unfold addserver
  simp only [hfp, hfs, hsk, ha1, ha2, ha3, Bool.true_eq_false, if_false]
  refine ⟨_, rfl, rfl, _, rfl, ?_⟩
  rw [List.countP_cons]
  simp

/-- Concrete duplicated server named n. -/
def c9Srv : Server := { zeroServer with id := "n" }

/-- Concrete backend holding the duplicated server twice. -/
def c9Px : Proxy :=
  { zeroProxy with
      id := "bb"
      cap := PR_CAP_BE ||| PR_CAP_RS
      srv := [c9Srv, c9Srv] }

/-- Concrete registry for the duplicate-name scenario. -/
def c9St : Registry := { proxies := [c9Px], used_proxy_id := [] }

/-- Witness for C9 at a backend with two servers named n. -/
theorem addserver_dup_name_w :
    findserver (some c9Px) ("n") = none ∧
    ∃ s, (addserver asEnv0 c9St ("bb") ("n") ("a") ("c")).1 = some s ∧
      s.id = "n" ∧
      ∃ px', (addserver asEnv0 c9St ("bb") ("n") ("a") ("c")).2.1.proxies
          = replaceProxy c9St.proxies ("bb") PR_CAP_BE px' ∧
        px'.srv.countP (fun s => s.id == "n")
          = c9Px.srv.countP (fun s => s.id == "n") + 1 :=
  addserver_dup_name asEnv0 c9St ("bb") ("n") ("a") ("c") c9Px
    { host := "10.0.0.1", port := 8080 } rfl (by decide) rfl rfl rfl rfl

/-- The session state (`struct session`), restricted to the fields
`session_set_backend` reads or writes.  Single-bit flags are Booleans:
`flags_be_assigned` is `SN_BE_ASSIGNED`, `si1_indep_str` is
`SI_FL_INDEP_STR` on `si[1]`. -/
structure Session where
  flags_be_assigned : Bool
  be : Option Nat
  rep_rto : Nat
  req_wto : Nat
  req_cto : Nat
  conn_retries : Nat
  si1_indep_str : Bool
  txn_rsp_err_pos : Int
  txn_hdr_idx_v : Bool
  txn_hdr_idx_size : Nat
  req_analysers : Nat
  listener_analysers : Nat
  fe_hdr_idx_pool : Bool
deriving DecidableEq

/-- C `session_set_backend`: no-op returning 1 when the backend is already
assigned; otherwise assign the backend, bump `beconn`, the peak and the
cumulative counter, copy timeouts, retries and the independent-streams
flag, tolerate buggy responses if configured, set the assigned flag, then
allocate the header index from the frontend pool when any L7 analyser is
required (returning 0 on allocation failure, modelled by
`allocOk = false`), and finally merge the backend's request analysers
minus those already run by the listener.  `proxy_inc_be_ctr` is external
and modelled from the spec as bumping `cum_beconn`. -/
def session_set_backend (allocOk : Bool) (s : Session) (be : Proxy) :
    Nat × Session × Proxy :=
  if s.flags_be_assigned then (1, s, be)
  else
    let s1 := { s with be := some be.uuid }
    let be1 := { be with beconn := be.beconn + 1 }
    let be2 :=
      if be1.counters.beconn_max < be1.beconn then
        { be1 with counters := { be1.counters with beconn_max := be1.beconn } }
      else be1
    let be3 := { be2 with counters :=
      { be2.counters with cum_beconn := be2.counters.cum_beconn + 1 } }
    let s2 := { s1 with
      rep_rto := be3.timeout.server
      req_wto := be3.timeout.server
      req_cto := be3.timeout.connect
      conn_retries := be3.conn_retries }
    let s3 := { s2 with si1_indep_str := be3.options2_indepstr }
    let s4 :=
      if be3.options2_rspbug_ok then { s3 with txn_rsp_err_pos := -1 } else s3
    let s5 := { s4 with flags_be_assigned := true }
    if s5.txn_hdr_idx_v = false ∧ be3.acl_requires &&& ACL_USE_L7_ANY ≠ 0 then
      if allocOk = false then (0, s5, be3)
      else
        let s6 := { s5 with
          txn_hdr_idx_v := true
          txn_hdr_idx_size := MAX_HTTP_HDR }
        let s7 := { s6 with req_analysers :=
          s6.req_analysers ||| (be3.be_req_ana &&& mask32not s6.listener_analysers) }
        (1, s7, be3)
    else
      let s6 := { s5 with req_analysers :=
        s5.req_analysers ||| (be3.be_req_ana &&& mask32not s5.listener_analysers) }
      (1, s6, be3)

theorem ssb_noop (allocOk : Bool) (s : Session) (be : Proxy)
    (h : s.flags_be_assigned = true) :
    session_set_backend allocOk s be = (1, s, be) := by
  unfold session_set_backend
  rw [h]
  simp

theorem ssb_sets_flag (allocOk : Bool) (s : Session) (be : Proxy)
    (h : s.flags_be_assigned = false) :
    (session_set_backend allocOk s be).2.1.flags_be_assigned = true ∧
    (session_set_backend allocOk s be).2.2.beconn = be.beconn + 1 := by
  unfold session_set_backend
  rw [h]
  simp only [Bool.false_eq_true, if_false]
  constructor
  · repeat' split
    all_goals rfl
  · repeat' split
    all_goals rfl

/-- Claim C5: `session_set_backend` is idempotent — with the
backend-assigned flag set it returns 1 and changes nothing, and starting
from an unassigned session, a second call with the backend produced by the
first is a no-op, so the two calls together increment `beconn` exactly
once. -/
theorem session_set_backend_idem (allocOk allocOk2 : Bool) (s : Session)
    (be : Proxy) :
    (s.flags_be_assigned = true →
      session_set_backend allocOk s be = (1, s, be)) ∧
    (s.flags_be_assigned = false →
      session_set_backend allocOk2 (session_set_backend allocOk s be).2.1
          (session_set_backend allocOk s be).2.2
        = (1, (session_set_backend allocOk s be).2.1,
              (session_set_backend allocOk s be).2.2) ∧
      (session_set_backend allocOk2 (session_set_backend allocOk s be).2.1
          (session_set_backend allocOk s be).2.2).2.2.beconn
        = be.beconn + 1) := by
  constructor
  · intro h
    exact ssb_noop allocOk s be h
  · intro h
    obtain ⟨hflag, hbe⟩ := ssb_sets_flag allocOk s be h
    refine ⟨ssb_noop allocOk2 _ _ hflag, ?_⟩
    rw [ssb_noop allocOk2 _ _ hflag]
    exact hbe

/-- A session with no backend assigned and no header index. -/
def zeroSession : Session where
  flags_be_assigned := false
  be := none
  rep_rto := 0
  req_wto := 0
  req_cto := 0
  conn_retries := 0
  si1_indep_str := false
  txn_rsp_err_pos := 0
  txn_hdr_idx_v := false
  txn_hdr_idx_size := 0
  req_analysers := 0
  listener_analysers := 0
  fe_hdr_idx_pool := true

/-- Concrete backend for the session-binder scenarios. -/
def c5Be : Proxy := { zeroProxy with uuid := 9 }

/-- Witness for C5 on a fresh session. -/
theorem session_set_backend_idem_w :
    session_set_backend true
        (session_set_backend true zeroSession c5Be).2.1
        (session_set_backend true zeroSession c5Be).2.2
      = (1, (session_set_backend true zeroSession c5Be).2.1,
            (session_set_backend true zeroSession c5Be).2.2) ∧
    (session_set_backend true
        (session_set_backend true zeroSession c5Be).2.1
        (session_set_backend true zeroSession c5Be).2.2).2.2.beconn
      = c5Be.beconn + 1 :=
  (session_set_backend_idem true true zeroSession c5Be).2 rfl

/-- Concrete backend requiring L7 processing. -/
def c6Be : Proxy := { zeroProxy with uuid := 3, acl_requires := ACL_USE_L7_ANY }

/-- Claim C6 (counterexample): with the header-index allocation failing,
`session_set_backend` returns 0 yet the session and the backend have both
been mutated — `beconn` is already incremented and the backend-assigned
flag already set. -/
theorem session_set_backend_oom_cex :
    (session_set_backend false zeroSession c6Be).1 = 0 ∧
    (session_set_backend false zeroSession c6Be).2.2.beconn
      = c6Be.beconn + 1 ∧
    (session_set_backend false zeroSession c6Be).2.1.flags_be_assigned
      = true ∧
    ¬ ((session_set_backend false zeroSession c6Be).2.1 = zeroSession ∧
       (session_set_backend false zeroSession c6Be).2.2 = c6Be) := by
  decide

/-- Claim C6 (amended): when the header-index allocation fails the call
returns 0, but every mutation made before the allocation is kept: the
backend's `beconn` and `cum_beconn` are incremented, the session's backend
pointer, timeouts, retries and the backend-assigned flag are already set,
and only the header index itself is left unallocated; there is no
rollback. -/
theorem session_set_backend_oom (s : Session) (be : Proxy)
    (hflag : s.flags_be_assigned = false)
    (hv : s.txn_hdr_idx_v = false)
    (hacl : be.acl_requires &&& ACL_USE_L7_ANY ≠ 0) :
    (session_set_backend false s be).1 = 0 ∧
    (session_set_backend false s be).2.2.beconn = be.beconn + 1 ∧
    (session_set_backend false s be).2.2.counters.cum_beconn
      = be.counters.cum_beconn + 1 ∧
    (session_set_backend false s be).2.1.flags_be_assigned = true ∧
    (session_set_backend false s be).2.1.be = some be.uuid ∧
    (session_set_backend false s be).2.1.rep_rto = be.timeout.server ∧
    (session_set_backend false s be).2.1.req_wto = be.timeout.server ∧
    (session_set_backend false s be).2.1.req_cto = be.timeout.connect ∧
    (session_set_backend false s be).2.1.conn_retries = be.conn_retries ∧
    (session_set_backend false s be).2.1.txn_hdr_idx_v = false := by
  unfold session_set_backend
  rw [hflag]
  simp only [Bool.false_eq_true, if_false, eq_self_iff_true, if_true]
  refine ⟨?_, ?_, ?_, ?_, ?_, ?_, ?_, ?_, ?_, ?_⟩ <;>
  · repeat' split
    all_goals
      first
        | rfl
        | exact hv
        | (rename_i hn
           exact absurd ⟨hv, hacl⟩ hn)

/-- Witness for the amended C6 theorem at a concrete session/backend. -/
theorem session_set_backend_oom_w :
    (session_set_backend false zeroSession c6Be).1 = 0 ∧
    (session_set_backend false zeroSession c6Be).2.2.beconn
      = c6Be.beconn + 1 ∧
    (session_set_backend false zeroSession c6Be).2.2.counters.cum_beconn
      = c6Be.counters.cum_beconn + 1 ∧
    (session_set_backend false zeroSession c6Be).2.1.flags_be_assigned
      = true ∧
    (session_set_backend false zeroSession c6Be).2.1.be = some c6Be.uuid ∧
    (session_set_backend false zeroSession c6Be).2.1.rep_rto
      = c6Be.timeout.server ∧
    (session_set_backend false zeroSession c6Be).2.1.req_wto
      = c6Be.timeout.server ∧
    (session_set_backend false zeroSession c6Be).2.1.req_cto
      = c6Be.timeout.connect ∧
    (session_set_backend false zeroSession c6Be).2.1.conn_retries
      = c6Be.conn_retries ∧
    (session_set_backend false zeroSession c6Be).2.1.txn_hdr_idx_v
      = false :=
  session_set_backend_oom zeroSession c6Be rfl rfl (by decide)

/-- External macro `MS_TO_TICKS`: milliseconds to ticks (identity in the
reference implementation). -/
def MS_TO_TICKS (t : Nat) : Nat := t

/-- The timeout selected by the first keyword of a timeout statement. -/
inductive TimeoutField where
  | client
  | tarpit
  | httpka
  | httpreq
  | server
  | connect
  | check
  | queue
deriving DecidableEq

/-- Read the selected timeout field. -/
def Timeouts.get (tv : Timeouts) : TimeoutField → Nat
  | TimeoutField.client => tv.client
  | TimeoutField.tarpit => tv.tarpit
  | TimeoutField.httpka => tv.httpka
  | TimeoutField.httpreq => tv.httpreq
  | TimeoutField.server => tv.server
  | TimeoutField.connect => tv.connect
  | TimeoutField.check => tv.check
  | TimeoutField.queue => tv.queue

/-- Write the selected timeout field. -/
def Timeouts.set (tv : Timeouts) : TimeoutField → Nat → Timeouts
  | TimeoutField.client, v => { tv with client := v }
  | TimeoutField.tarpit, v => { tv with tarpit := v }
  | TimeoutField.httpka, v => { tv with httpka := v }
  | TimeoutField.httpreq, v => { tv with httpreq := v }
  | TimeoutField.server, v => { tv with server := v }
  | TimeoutField.connect, v => { tv with connect := v }
  | TimeoutField.check, v => { tv with check := v }
  | TimeoutField.queue, v => { tv with queue := v }

/-- The keyword table of `proxy_parse_timeout`: timeout name (with the
legacy composites) to target field and required capability. -/
def tfField (a0 : String) : Option (TimeoutField × Nat) :=
  if a0 = "client" ∨ a0 = "clitimeout" then
    some (TimeoutField.client, PR_CAP_FE)
  else if a0 = "tarpit" then
    some (TimeoutField.tarpit, PR_CAP_FE ||| PR_CAP_BE)
  else if a0 = "http-keep-alive" then
    some (TimeoutField.httpka, PR_CAP_FE ||| PR_CAP_BE)
  else if a0 = "http-request" then
    some (TimeoutField.httpreq, PR_CAP_FE ||| PR_CAP_BE)
  else if a0 = "server" ∨ a0 = "srvtimeout" then
    some (TimeoutField.server, PR_CAP_BE)
  else if a0 = "connect" ∨ a0 = "contimeout" then
    some (TimeoutField.connect, PR_CAP_BE)
  else if a0 = "check" then
    some (TimeoutField.check, PR_CAP_BE)
  else if a0 = "queue" then
    some (TimeoutField.queue, PR_CAP_BE)
  else none

/-- The two relevant argument words of a timeout statement, after skipping
a leading literal word timeout (the C code does `args++`). -/
def ptArgs (args : List String) : String × String :=
  let args1 := if args.head? = some ("timeout") then args.tail else args
  (((args1.get? 0).getD ""), ((args1.get? 1).getD ""))

/-- C `proxy_parse_timeout`: resolve the keyword, require a value, parse it
with the external time-unit parser `parse_time` (milliseconds by default;
`none` models a parse error), then store the value as ticks — warning
(retval 1) when the proxy lacks the required capability or when the
default-proxy value was already overridden, success (0) otherwise, error
(-1) without storing on the three failure cases. -/
def proxy_parse_timeout (parse_time : String → Option Nat)
    (args : List String) (px : Proxy) (defpx : Option Proxy) :
    Int × Proxy :=
  let a0 := (ptArgs args).1
  let a1 := (ptArgs args).2
  match tfField a0 with
  | none => (-1, px)
  | some (f, cap) =>
    if a1 = "" then (-1, px)
    else
      match parse_time a1 with
      | none => (-1, px)
      | some t =>
        let retval : Int :=
          if px.cap &&& cap = 0 then 1
          else
            match defpx with
            | some d => if px.timeout.get f ≠ d.timeout.get f then 1 else 0
            | none => 0
        (retval, { px with timeout := px.timeout.set f (MS_TO_TICKS t) })

/-- Claim C8: `proxy_parse_timeout` returns -1 and stores nothing on an
unknown keyword, a missing value or a parse error; otherwise it always
stores the parsed value converted to ticks, returning 1 (warning) when the
proxy lacks the required capability or when a default-proxy value was
already overridden, and 0 otherwise. -/
theorem proxy_parse_timeout_spec (parse_time : String → Option Nat)
    (args : List String) (px : Proxy) (defpx : Option Proxy) :
    (tfField (ptArgs args).1 = none →
      proxy_parse_timeout parse_time args px defpx = (-1, px)) ∧
    (∀ f cap, tfField (ptArgs args).1 = some (f, cap) →
      ((ptArgs args).2 = "" →
        proxy_parse_timeout parse_time args px defpx = (-1, px)) ∧
      ((ptArgs args).2 ≠ "" → parse_time (ptArgs args).2 = none →
        proxy_parse_timeout parse_time args px defpx = (-1, px)) ∧
      (∀ t, (ptArgs args).2 ≠ "" → parse_time (ptArgs args).2 = some t →
        (proxy_parse_timeout parse_time args px defpx).2
          = { px with timeout := px.timeout.set f (MS_TO_TICKS t) } ∧
        (px.cap &&& cap = 0 →
          (proxy_parse_timeout parse_time args px defpx).1 = 1) ∧
        (px.cap &&& cap ≠ 0 → ∀ d, defpx = some d →
          px.timeout.get f ≠ d.timeout.get f →
          (proxy_parse_timeout parse_time args px defpx).1 = 1) ∧
        (px.cap &&& cap ≠ 0 →
          (defpx = none ∨
            ∃ d, defpx = some d ∧ px.timeout.get f = d.timeout.get f) →
          (proxy_parse_timeout parse_time args px defpx).1 = 0))) := by
  constructor
  · intro h
    unfold proxy_parse_timeout
    simp only [h]
  · intro f cap h
    refine ⟨?_, ?_, ?_⟩
    · intro h1
      unfold proxy_parse_timeout
      simp only [h, h1, eq_self_iff_true, if_true]
    · intro h1 h2
      unfold proxy_parse_timeout
      simp only [h, h2]
      rw [if_neg h1]
    · intro t h1 h2
      unfold proxy_parse_timeout
      simp only [h, h2]
      rw [if_neg h1]
      refine ⟨rfl, ?_, ?_, ?_⟩
      · intro hcap
        simp only [if_pos hcap]
      · intro hcap d hd hne
        simp only [if_neg hcap, hd]
        rw [if_pos hne]
      · intro hcap hdef
        simp only [if_neg hcap]
        rcases hdef with hdef | ⟨d, hd, heq⟩
        · simp only [hdef]
        · simp only [hd]
          rw [if_neg (by simpa using heq)]

/-- Concrete parse-time oracle: only the literal 5s resolves, to 5000 ms. -/
def pt0 : String → Option Nat :=
  fun v => if v = "5s" then some 5000 else none

/-- Concrete frontend proxy for the timeout-parser witness. -/
def c8Px : Proxy := { zeroProxy with id := "fe1", cap := PR_CAP_FE }

/-- Witness for C8: `timeout client 5s` on a frontend stores 5000 ticks and
returns 0. -/
theorem proxy_parse_timeout_spec_w :
    (proxy_parse_timeout pt0 (["timeout", "client", "5s"]) c8Px none).2
      = { c8Px with timeout :=
            c8Px.timeout.set TimeoutField.client (MS_TO_TICKS 5000) } ∧
    (proxy_parse_timeout pt0 (["timeout", "client", "5s"]) c8Px none).1
      = 0 := by
  have h := (proxy_parse_timeout_spec pt0 (["timeout", "client", "5s"])
    c8Px none).2 TimeoutField.client PR_CAP_FE rfl
  have h3 := h.2.2 5000 (by decide) rfl
  exact ⟨h3.1, h3.2.2.2 (by decide) (Or.inl rfl)⟩

/-- Modelled from the spec (Listener interface): enable a listener. -/
def enable_listener (l : Listener) : Listener := { l with enabled := true }

/-- Modelled from the spec (Listener interface): disable a listener. -/
def disable_listener (l : Listener) : Listener := { l with enabled := false }

/-- Environment read by `maintain_proxies`: the global session count and
limit, the clock, the stopping flag and the external rate counter
`next_event_delay` (a pure function of the per-proxy counter and the
limit). -/
structure MpEnv where
  actconn : Nat
  gmaxconn : Nat
  now_ms : Nat
  stopping : Bool
  ned : Nat → Nat → Nat

/-- The do_block tail of the `maintain_proxies` loop: a RUNNING proxy has
all its listeners disabled and moves to IDLE; others are untouched. -/
def mpBlock (p : Proxy) : Proxy :=
  if p.state = PrState.STRUN then
    { p with listen := p.listen.map disable_listener,
             state := PrState.STIDLE }
  else p

/-- One iteration of the admission-gate loop on one proxy, threading the
next-wakeup tick: block on feconn >= maxconn; else block and clamp the
wakeup when the session-rate limit yields a non-zero delay; else enable an
IDLE proxy. -/
def mpGateStep (env : MpEnv) (p : Proxy) (next : Nat) : Proxy × Nat :=
  if p.maxconn ≤ p.feconn then (mpBlock p, next)
  else if p.fe_sps_lim ≠ 0 ∧ env.ned p.fe_sess_per_sec p.fe_sps_lim ≠ 0 then
    (mpBlock p,
      tick_first next
        (tick_add env.now_ms (env.ned p.fe_sess_per_sec p.fe_sps_lim)))
  else if p.state = PrState.STIDLE then
    ({ p with listen := p.listen.map enable_listener,
              state := PrState.STRUN }, next)
  else (p, next)

/-- The proxy component of `mpGateStep`, which does not depend on the
next-wakeup accumulator. -/
def mpGateProxy (env : MpEnv) (p : Proxy) : Proxy :=
  if p.maxconn ≤ p.feconn then mpBlock p
  else if p.fe_sps_lim ≠ 0 ∧ env.ned p.fe_sess_per_sec p.fe_sps_lim ≠ 0 then
    mpBlock p
  else if p.state = PrState.STIDLE then
    { p with listen := p.listen.map enable_listener,
             state := PrState.STRUN }
  else p

/-- The admission-gate loop of `maintain_proxies` over the proxy list. -/
def mpGate (env : MpEnv) : List Proxy → Nat → List Proxy × Nat
  | [], next => ([], next)
  | p :: ps, next =>
    let r := mpGateStep env p next
    let rest := mpGate env ps r.2
    (r.1 :: rest.1, rest.2)

/-- C `stop_proxy`: unbind, delete and account each listener, then set the
state to STOPPED.  Listener sub-states are abstracted: every listener is
removed and counted against the global listener counter. -/
def stop_proxy (p : Proxy) : Proxy × Nat :=
  ({ p with listen := [], state := PrState.STSTOPPED }, p.listen.length)

/-- The drain loop of `maintain_proxies` under `stopping`: stop every
proxy whose stop_time has expired (decrementing the listener counter),
otherwise clamp the next wakeup to its stop_time. -/
def mpDrain (env : MpEnv) : List Proxy → Nat → Nat → List Proxy × Nat × Nat
  | [], next, nl => ([], next, nl)
  | p :: ps, next, nl =>
    if p.state ≠ PrState.STSTOPPED then
      if tick_remain env.now_ms p.stop_time = 0 then
        let r := stop_proxy p
        let rest := mpDrain env ps next (nl - r.2)
        (r.1 :: rest.1, rest.2)
      else
        let rest := mpDrain env ps (tick_first next p.stop_time) nl
        (p :: rest.1, rest.2)
    else
      let rest := mpDrain env ps next nl
      (p :: rest.1, rest.2)

/-- C `maintain_proxies`: when the global connection table has room, run
the admission gate over every proxy; when it is full, block every RUNNING
proxy; then, if stopping, run the drain loop.  Returns the updated proxy
list, the next-wakeup tick and the global listener counter. -/
def maintain_proxies (env : MpEnv) (ps : List Proxy) (next : Nat)
    (nlisteners : Nat) : List Proxy × Nat × Nat :=
  let gate :=
    if env.actconn < env.gmaxconn then mpGate env ps next
    else (ps.map mpBlock, next)
  if env.stopping then mpDrain env gate.1 gate.2 nlisteners
  else (gate.1, gate.2, nlisteners)

theorem mpGateStep_fst (env : MpEnv) (p : Proxy) (next : Nat) :
    (mpGateStep env p next).1 = mpGateProxy env p := by
  unfold mpGateStep mpGateProxy
  split_ifs <;> rfl

theorem mpGate_fst (env : MpEnv) (ps : List Proxy) :
    ∀ next, (mpGate env ps next).1 = ps.map (mpGateProxy env) := by
  induction ps with
  | nil => intro next; rfl
  | cons p ps ih =>
    intro next
    show (mpGateStep env p next).1
        :: (mpGate env ps (mpGateStep env p next).2).1
      = mpGateProxy env p :: ps.map (mpGateProxy env)
    rw [mpGateStep_fst, ih]

theorem mpGateStep_snd_le (env : MpEnv) (p : Proxy) (next : Nat) :
    (mpGateStep env p next).2 ≤ next := by
  unfold mpGateStep
  split_ifs <;> simp only [tick_first, tick_add] <;> omega

theorem mpGate_snd_le (env : MpEnv) (ps : List Proxy) :
    ∀ next, (mpGate env ps next).2 ≤ next := by
  induction ps with
  | nil => intro next; exact Nat.le_refl next
  | cons p ps ih =>
    intro next
    show (mpGate env ps (mpGateStep env p next).2).2 ≤ next
    exact Nat.le_trans (ih _) (mpGateStep_snd_le env p next)

theorem mpGate_snd_clamp (env : MpEnv) (ps : List Proxy) :
    ∀ next p, p ∈ ps → p.feconn < p.maxconn → p.fe_sps_lim ≠ 0 →
      env.ned p.fe_sess_per_sec p.fe_sps_lim ≠ 0 →
      (mpGate env ps next).2
        ≤ tick_add env.now_ms (env.ned p.fe_sess_per_sec p.fe_sps_lim) := by
  induction ps with
  | nil => intro next p hp; cases hp
  | cons a ps ih =>
    intro next p hp h1 h2 h3
    rcases List.mem_cons.mp hp with heq | hp'
    · subst heq
      show (mpGate env ps (mpGateStep env p next).2).2 ≤ _
      refine Nat.le_trans (mpGate_snd_le env ps _) ?_
      unfold mpGateStep
      rw [if_neg (Nat.not_le.mpr h1), if_pos ⟨h2, h3⟩]
      exact Nat.min_le_right _ _
    · show (mpGate env ps (mpGateStep env a next).2).2 ≤ _
      exact ih _ p hp' h1 h2 h3

theorem mem_map_disabled (L : List Listener) :
    ∀ l ∈ L.map disable_listener, l.enabled = false := by
  intro l hl
  obtain ⟨l0, _, rfl⟩ := List.mem_map.mp hl
  rfl

theorem mem_map_enabled (L : List Listener) :
    ∀ l ∈ L.map enable_listener, l.enabled = true := by
  intro l hl
  obtain ⟨l0, _, rfl⟩ := List.mem_map.mp hl
  rfl

theorem mpBlock_run (p : Proxy) (h : p.state = PrState.STRUN) :
    (mpBlock p).state = PrState.STIDLE ∧
    ∀ l ∈ (mpBlock p).listen, l.enabled = false := by
  unfold mpBlock
  rw [if_pos h]
  exact ⟨rfl, mem_map_disabled p.listen⟩

theorem mpGateProxy_block (env : MpEnv) (p : Proxy)
    (hb : p.maxconn ≤ p.feconn ∨
      (p.fe_sps_lim ≠ 0 ∧ env.ned p.fe_sess_per_sec p.fe_sps_lim ≠ 0))
    (hrun : p.state = PrState.STRUN) :
    (mpGateProxy env p).state = PrState.STIDLE ∧
    ∀ l ∈ (mpGateProxy env p).listen, l.enabled = false := by
  unfold mpGateProxy
  by_cases h1 : p.maxconn ≤ p.feconn
  · rw [if_pos h1]
    exact mpBlock_run p hrun
  · rcases hb with hb | hb
    · exact absurd hb h1
    · rw [if_neg h1, if_pos hb]
      exact mpBlock_run p hrun

theorem mpGateProxy_unblock (env : MpEnv) (p : Proxy)
    (h1 : p.feconn < p.maxconn)
    (h2 : p.fe_sps_lim = 0 ∨ env.ned p.fe_sess_per_sec p.fe_sps_lim = 0)
    (hidle : p.state = PrState.STIDLE) :
    (mpGateProxy env p).state = PrState.STRUN ∧
    ∀ l ∈ (mpGateProxy env p).listen, l.enabled = true := by
  unfold mpGateProxy
  rw [if_neg (Nat.not_le.mpr h1),
    if_neg (show ¬ (p.fe_sps_lim ≠ 0 ∧
      env.ned p.fe_sess_per_sec p.fe_sps_lim ≠ 0) by
        rcases h2 with h2 | h2 <;> simp [h2]),
    if_pos hidle]
  exact ⟨rfl, mem_map_enabled p.listen⟩

/-- Claim C1: with `stopping` clear, each call to `maintain_proxies` under
global room (`actconn < global.maxconn`) blocks every proxy whose
`feconn >= maxconn` or whose non-zero rate limit yields a non-zero delay
(if RUNNING: listeners disabled, state to IDLE; in the rate-limit case the
next wakeup is clamped to now + wait), and enables every unblocked IDLE
proxy (listeners enabled, state to RUNNING); under global saturation every
RUNNING proxy is blocked to IDLE with its listeners disabled. -/
theorem maintain_proxies_gate (env : MpEnv) (ps : List Proxy)
    (next nl : Nat) (hstop : env.stopping = false) :
    (env.actconn < env.gmaxconn →
      (∀ (i : Nat) (p p' : Proxy), ps[i]? = some p →
        (maintain_proxies env ps next nl).1[i]? = some p' →
        ((p.maxconn ≤ p.feconn ∨
            (p.fe_sps_lim ≠ 0 ∧
              env.ned p.fe_sess_per_sec p.fe_sps_lim ≠ 0)) →
          p.state = PrState.STRUN →
          p'.state = PrState.STIDLE ∧
          ∀ l ∈ p'.listen, l.enabled = false) ∧
        ((p.feconn < p.maxconn ∧
            (p.fe_sps_lim = 0 ∨
              env.ned p.fe_sess_per_sec p.fe_sps_lim = 0)) →
          p.state = PrState.STIDLE →
          p'.state = PrState.STRUN ∧
          ∀ l ∈ p'.listen, l.enabled = true)) ∧
      (∀ p ∈ ps, p.feconn < p.maxconn → p.fe_sps_lim ≠ 0 →
        env.ned p.fe_sess_per_sec p.fe_sps_lim ≠ 0 →
        (maintain_proxies env ps next nl).2.1
          ≤ tick_add env.now_ms (env.ned p.fe_sess_per_sec p.fe_sps_lim))) ∧
    (env.gmaxconn ≤ env.actconn →
      ∀ (i : Nat) (p p' : Proxy), ps[i]? = some p →
        (maintain_proxies env ps next nl).1[i]? = some p' →
        p.state = PrState.STRUN →
        p'.state = PrState.STIDLE ∧
        ∀ l ∈ p'.listen, l.enabled = false) := by
  unfold maintain_proxies
  rw [hstop]
  simp only [Bool.false_eq_true, if_false]
  constructor
  · intro hlt
    rw [if_pos hlt]
    constructor
    · intro i p p' hp hp'
      rw [mpGate_fst, List.getElem?_map, hp] at hp'
      simp only [Option.map_some'] at hp'
      injection hp' with hp'
      subst hp'
      exact ⟨fun hb hrun => mpGateProxy_block env p hb hrun,
        fun hu hidle => mpGateProxy_unblock env p hu.1 hu.2 hidle⟩
    · intro p hp h1 h2 h3
      exact mpGate_snd_clamp env ps next p hp h1 h2 h3
  · intro hge
    rw [if_neg (Nat.not_lt.mpr hge)]
    intro i p p' hp hp'
    rw [List.getElem?_map, hp] at hp'
    simp only [Option.map_some'] at hp'
    injection hp' with hp'
    subst hp'
    exact fun hrun => mpBlock_run p hrun

/-- Concrete environment for the C1 witness: room in the global table, no
rate limiting. -/
def mpEnv0 : MpEnv where
  actconn := 0
  gmaxconn := 10
  now_ms := 100
  stopping := false
  ned := fun _ _ => 0

/-- Concrete IDLE frontend with room, whose listener is disabled. -/
def mpPx0 : Proxy :=
  { zeroProxy with
      state := PrState.STIDLE
      maxconn := 5
      feconn := 0
      listen := [{ enabled := false }] }

/-- Witness for C1: the unblocked IDLE proxy is moved to RUNNING. -/
theorem maintain_proxies_gate_w :
    ((maintain_proxies mpEnv0 [mpPx0] 50 7).1[0]?.map Proxy.state)
      = some PrState.STRUN := by
  have h := (maintain_proxies_gate mpEnv0 [mpPx0] 50 7 rfl).1 (by decide)
  have h1 := (h.1 0 mpPx0 (mpGateProxy mpEnv0 mpPx0) rfl rfl).2
    (by decide) rfl
  have h0 : (maintain_proxies mpEnv0 [mpPx0] 50 7).1[0]?
      = some (mpGateProxy mpEnv0 mpPx0) := rfl
  rw [h0]
  simp [h1.1]

/-- Remove the first server carrying the given id (the C code unlinks the
node `findserver` returned; when `findserver` succeeds that node is the
unique — hence also the first — server with this id). -/
def removeServerById : List Server → String → List Server
  | [], _ => []
  | s :: rest, name =>
    if s.id = name then rest else s :: removeServerById rest name

/-- C `delserver`: locate the backend and the server, set MAINTAIN on the
doomed record, call `set_server_down`, delete and free the check task
(events), unlink the server and free its strings and buffers.  Returns 0
on success, 1 on lookup failure. -/
def delserver (st : Registry) (pxid svid : String) :
    Nat × Registry × List SrvEvent :=
  match findproxy st.proxies pxid PR_CAP_BE with
  | none => (1, st, [])
  | some px =>
    match findserver (some px) svid with
    | none => (1, st, [])
    | some oldsrv =>
      let px' := { px with srv := removeServerById px.srv svid }
      (0,
        { st with proxies := replaceProxy st.proxies pxid PR_CAP_BE px' },
        [SrvEvent.setServerDown oldsrv.id,
         SrvEvent.taskDeleted oldsrv.id,
         SrvEvent.taskFreed oldsrv.id])

/-- Remove the first proxy carrying the given uuid (the C unlink scans for
the node that IS the given pointer; the model identifies a live proxy
pointer with the unique registry entry carrying its uuid). -/
def removeProxyByUuid : List Proxy → Nat → List Proxy
  | [], _ => []
  | c :: rest, u =>
    if c.uuid = u then rest else c :: removeProxyByUuid rest u

/-- The `while (px->srv) delserver(px->id, px->srv->id)` loop of
`delbackend`, fueled: `none` models the C loop never terminating (which
happens when a `delserver` call fails and the server list stops
shrinking). -/
def delbackendLoop : Nat → Registry → Nat → String →
    Option (Registry × List SrvEvent)
  | 0, _, _, _ => none
  | fuel + 1, st, u, pid =>
    match st.proxies.find? (fun c => c.uuid == u) with
    | none => none
    | some p =>
      match p.srv with
      | [] => some (st, [])
      | s0 :: _ =>
        match delserver st pid s0.id with
        | (0, st', evs) =>
          match delbackendLoop fuel st' u pid with
          | none => none
          | some (st'', evs') => some (st'', evs ++ evs')
        | _ => none

/-- C `delbackend`: refuse (1) while any proxy's `defbe` or switching rule
points at `px`; otherwise delete every server of `px` through `delserver`,
unlink `px` from the global list and release it (0).  `none` models the
non-terminating loop on pathological states.  The fuel is the current
server count of the entry carrying the pointer's uuid, which suffices
whenever each `delserver` call removes one server. -/
def delbackend (st : Registry) (px : Proxy) :
    Option (Nat × Registry × List SrvEvent) :=
  if st.proxies.any (fun c =>
      (c.defbe == some px.uuid) || c.switching_rules.contains px.uuid) then
    some (1, st, [])
  else
    let fuel :=
      (match st.proxies.find? (fun c => c.uuid == px.uuid) with
       | some p => p.srv.length
       | none => 0) + 1
    match delbackendLoop fuel st px.uuid px.id with
    | none => none
    | some (st', evs) =>
      match st'.proxies.find? (fun c => c.uuid == px.uuid) with
      | none => none
      | some _ =>
        some (0,
          { st' with proxies := removeProxyByUuid st'.proxies px.uuid },
          evs)

/-- The criterion by which `findproxy`/`replaceProxy` locate a backend in
`delserver`: BE capability and matching id. -/
def isBeNamed (pid : String) (c : Proxy) : Prop :=
  c.cap &&& PR_CAP_BE = PR_CAP_BE ∧ c.id = pid

instance (pid : String) (c : Proxy) : Decidable (isBeNamed pid c) := by
  unfold isBeNamed
  infer_instance

theorem find?_middle {α : Type} (p : α → Bool) (x : α) (l2 : List α) :
    ∀ l1 : List α, (∀ c ∈ l1, p c = false) → p x = true →
      (l1 ++ x :: l2).find? p = some x := by
  intro l1
  induction l1 with
  | nil =>
    intro _ hx
    exact List.find?_cons_of_pos _ hx
  | cons a l1 ih =>
    intro h1 hx
    rw [List.cons_append,
      List.find?_cons_of_neg _ (by simp [h1 a (List.mem_cons_self a l1)])]
    exact ih (fun c hc => h1 c (List.mem_cons_of_mem a hc)) hx

theorem findproxyAux_skip (name : String) :
    ∀ (l : List Proxy) (t : Option Proxy),
      (∀ c ∈ l, ¬ isBeNamed name c) → findproxyAux name PR_CAP_BE l t = t := by
  intro l
  induction l with
  | nil => intro t _; rfl
  | cons a l ih =>
    intro t h
    have ha : a.cap &&& PR_CAP_BE ≠ PR_CAP_BE ∨ a.id ≠ name :=
      not_and_or.mp (h a (List.mem_cons_self a l))
    unfold findproxyAux
    rw [if_pos ha]
    exact ih t (fun c hc => h c (List.mem_cons_of_mem a hc))

theorem findproxy_middle (name : String) (px : Proxy) (l2 : List Proxy) :
    ∀ l1 : List Proxy,
      (∀ c ∈ l1, ¬ isBeNamed name c) → (∀ c ∈ l2, ¬ isBeNamed name c) →
      isBeNamed name px →
      findproxy (l1 ++ px :: l2) name PR_CAP_BE = some px := by
  intro l1
  induction l1 with
  | nil =>
    intro _ h2 hpx
    show findproxyAux name PR_CAP_BE (px :: l2) none = some px
    unfold findproxyAux
    rw [if_neg (by
      rw [not_or, not_not, not_not]
      exact ⟨hpx.1, hpx.2⟩)]
    exact findproxyAux_skip name l2 (some px) h2
  | cons a l1 ih =>
    intro h1 h2 hpx
    have ha : a.cap &&& PR_CAP_BE ≠ PR_CAP_BE ∨ a.id ≠ name :=
      not_and_or.mp (h1 a (List.mem_cons_self a l1))
    show findproxyAux name PR_CAP_BE ((a :: l1) ++ px :: l2) none = some px
    rw [List.cons_append]
    unfold findproxyAux
    rw [if_pos ha]
    exact ih (fun c hc => h1 c (List.mem_cons_of_mem a hc)) h2 hpx

theorem findserverAux_skip (name : String) :
    ∀ (l : List Server) (t : Option Server),
      (∀ s ∈ l, s.id ≠ name) → findserverAux name l t = t := by
  intro l
  induction l with
  | nil => intro t _; rfl
  | cons a l ih =>
    intro t h
    unfold findserverAux
    rw [if_pos (h a (List.mem_cons_self a l))]
    exact ih t (fun s hs => h s (List.mem_cons_of_mem a hs))

theorem findserver_head (px : Proxy) (s0 : Server) (rest : List Server)
    (hsrv : px.srv = s0 :: rest) (hdist : ∀ s ∈ rest, s.id ≠ s0.id) :
    findserver (some px) s0.id = some s0 := by
  show findserverAux s0.id px.srv none = some s0
  rw [hsrv]
  unfold findserverAux
  rw [if_neg (by simp)]
  exact findserverAux_skip s0.id rest (some s0) hdist

theorem map_replace_skip (pid : String) (px' : Proxy) :
    ∀ l : List Proxy, (∀ c ∈ l, ¬ isBeNamed pid c) →
      l.map (fun c =>
        if c.cap &&& PR_CAP_BE = PR_CAP_BE ∧ c.id = pid then px' else c)
        = l := by
  intro l
  induction l with
  | nil => intro _; rfl
  | cons a l ih =>
    intro h
    rw [List.map_cons,
      if_neg (show ¬ (a.cap &&& PR_CAP_BE = PR_CAP_BE ∧ a.id = pid) from
        h a (List.mem_cons_self a l)),
      ih (fun c hc => h c (List.mem_cons_of_mem a hc))]

theorem replaceProxy_middle (pid : String) (pxCur px' : Proxy)
    (l1 l2 : List Proxy)
    (h1 : ∀ c ∈ l1, ¬ isBeNamed pid c) (h2 : ∀ c ∈ l2, ¬ isBeNamed pid c)
    (hpx : isBeNamed pid pxCur) :
    replaceProxy (l1 ++ pxCur :: l2) pid PR_CAP_BE px' = l1 ++ px' :: l2 := by
  unfold replaceProxy
  rw [List.map_append, List.map_cons, if_pos ⟨hpx.1, hpx.2⟩,
    map_replace_skip pid px' l1 h1, map_replace_skip pid px' l2 h2]

theorem removeProxyByUuid_middle (u : Nat) (x : Proxy) (l2 : List Proxy) :
    ∀ l1 : List Proxy, (∀ c ∈ l1, c.uuid ≠ u) → x.uuid = u →
      removeProxyByUuid (l1 ++ x :: l2) u = l1 ++ l2 := by
  intro l1
  induction l1 with
  | nil =>
    intro _ hx
    show removeProxyByUuid (x :: l2) u = l2
    unfold removeProxyByUuid
    rw [if_pos hx]
  | cons a l1 ih =>
    intro h1 hx
    rw [List.cons_append]
    unfold removeProxyByUuid
    rw [if_neg (h1 a (List.mem_cons_self a l1)),
      ih (fun c hc => h1 c (List.mem_cons_of_mem a hc)) hx]
    rfl

theorem removeServerById_head (s0 : Server) (rest : List Server) :
    removeServerById (s0 :: rest) s0.id = rest := by
  unfold removeServerById
  rw [if_pos rfl]

theorem delserver_middle (U : List Nat) (l1 l2 : List Proxy)
    (pxCur : Proxy) (s0 : Server) (rest : List Server)
    (h1 : ∀ c ∈ l1, ¬ isBeNamed pxCur.id c)
    (h2 : ∀ c ∈ l2, ¬ isBeNamed pxCur.id c)
    (hcap : pxCur.cap &&& PR_CAP_BE = PR_CAP_BE)
    (hsrv : pxCur.srv = s0 :: rest)
    (hdist : ∀ s ∈ rest, s.id ≠ s0.id) :
    delserver { proxies := l1 ++ pxCur :: l2, used_proxy_id := U }
        pxCur.id s0.id
      = (0,
         { proxies := l1 ++ { pxCur with srv := rest } :: l2,
           used_proxy_id := U },
         [SrvEvent.setServerDown s0.id, SrvEvent.taskDeleted s0.id,
          SrvEvent.taskFreed s0.id]) := by
  simp only [delserver,
    findproxy_middle pxCur.id pxCur l2 l1 h1 h2 ⟨hcap, rfl⟩,
    findserver_head pxCur s0 rest hsrv hdist]
  rw [hsrv, removeServerById_head,
    replaceProxy_middle pxCur.id pxCur { pxCur with srv := rest }
      l1 l2 h1 h2 ⟨hcap, rfl⟩]

theorem delbackendLoop_ok (U : List Nat) (l1 l2 : List Proxy) :
    ∀ (srv : List Server) (pxCur : Proxy),
      pxCur.cap &&& PR_CAP_BE = PR_CAP_BE →
      pxCur.srv = srv →
      srv.Pairwise (fun a b => a.id ≠ b.id) →
      (∀ c ∈ l1, ¬ isBeNamed pxCur.id c) → (∀ c ∈ l1, c.uuid ≠ pxCur.uuid) →
      (∀ c ∈ l2, ¬ isBeNamed pxCur.id c) → (∀ c ∈ l2, c.uuid ≠ pxCur.uuid) →
      ∃ evs pxF,
        delbackendLoop (srv.length + 1)
            { proxies := l1 ++ pxCur :: l2, used_proxy_id := U }
            pxCur.uuid pxCur.id
          = some ({ proxies := l1 ++ pxF :: l2, used_proxy_id := U }, evs) ∧
        pxF.uuid = pxCur.uuid ∧
        (∀ s ∈ srv, SrvEvent.setServerDown s.id ∈ evs) := by
  intro srv
  induction srv with
  | nil =>
    intro pxCur hcap hsrv _ h1 h1u h2 h2u
    refine ⟨[], pxCur, ?_, rfl, by simp⟩
    have e1 : List.find? (fun c => c.uuid == pxCur.uuid) (l1 ++ pxCur :: l2)
        = some pxCur :=
      find?_middle _ pxCur l2 l1
        (fun c hc => by simpa using h1u c hc) (by simp)
    unfold delbackendLoop
    simp only [e1, hsrv]
  | cons s0 rest ih =>
    intro pxCur hcap hsrv hpw h1 h1u h2 h2u
    have hpw' := List.pairwise_cons.mp hpw
    have hdist : ∀ s ∈ rest, s.id ≠ s0.id :=
      fun s hs h => (hpw'.1 s hs) h.symm
    have e1 : List.find? (fun c => c.uuid == pxCur.uuid) (l1 ++ pxCur :: l2)
        = some pxCur :=
      find?_middle _ pxCur l2 l1
        (fun c hc => by simpa using h1u c hc) (by simp)
    have hstep := delserver_middle U l1 l2 pxCur s0 rest h1 h2 hcap hsrv hdist
    obtain ⟨evs', pxF, hloop, hu, hmem⟩ :=
      ih { pxCur with srv := rest } hcap rfl hpw'.2 h1 h1u h2 h2u
    refine ⟨[SrvEvent.setServerDown s0.id, SrvEvent.taskDeleted s0.id,
        SrvEvent.taskFreed s0.id] ++ evs', pxF, ?_, hu, ?_⟩
    · show delbackendLoop ((s0 :: rest).length + 1) _ _ _ = _
      simp only [List.length_cons]
      unfold delbackendLoop
      simp only [e1, hsrv, hstep, hloop]
    · intro s hs
      rcases List.mem_cons.mp hs with heq | hs'
      · subst heq
        exact List.mem_append_left _ (by simp)
      · exact List.mem_append_right _ (hmem s hs')

/-- Claim C4 (amended): `delbackend(px)` refuses — returning 1 with the
registry unchanged — exactly when some proxy, *including possibly px
itself*, references px through its `defbe` pointer or a switching rule;
when no reference exists and the registry is well formed (px occurs once,
no other BE proxy shares its name, uuids are unique, its servers carry
distinct names) it deletes every server of px via `delserver` (each server
receives its set_server_down / task teardown events), unlinks px from the
global proxy list, releases it and returns 0. -/
theorem delbackend_spec (st : Registry) (px : Proxy) :
    ((∃ c ∈ st.proxies,
        c.defbe = some px.uuid ∨ px.uuid ∈ c.switching_rules) ↔
      delbackend st px = some (1, st, [])) ∧
    (∀ l1 l2, st.proxies = l1 ++ px :: l2 →
      (∀ c ∈ st.proxies,
        ¬ (c.defbe = some px.uuid ∨ px.uuid ∈ c.switching_rules)) →
      px.cap &&& PR_CAP_BE = PR_CAP_BE →
      (∀ c ∈ l1, ¬ isBeNamed px.id c) →
      (∀ c ∈ l2, ¬ isBeNamed px.id c) →
      (∀ c ∈ l1, c.uuid ≠ px.uuid) →
      (∀ c ∈ l2, c.uuid ≠ px.uuid) →
      px.srv.Pairwise (fun a b => a.id ≠ b.id) →
      ∃ evs, delbackend st px
          = some (0, { proxies := l1 ++ l2,
                       used_proxy_id := st.used_proxy_id }, evs) ∧
        (∀ s ∈ px.srv, SrvEvent.setServerDown s.id ∈ evs)) := by
  have hany_iff : st.proxies.any (fun c =>
      (c.defbe == some px.uuid) || c.switching_rules.contains px.uuid) = true
      ↔ ∃ c ∈ st.proxies,
          c.defbe = some px.uuid ∨ px.uuid ∈ c.switching_rules := by
    rw [List.any_eq_true]
    constructor
    · rintro ⟨c, hc, hp⟩
      refine ⟨c, hc, ?_⟩
      simpa using hp
    · rintro ⟨c, hc, hp⟩
      refine ⟨c, hc, ?_⟩
      simpa using hp
  constructor
  · constructor
    · intro hex
      unfold delbackend
      rw [if_pos (hany_iff.mpr hex)]
    · intro heq
      by_cases hany : st.proxies.any (fun c =>
          (c.defbe == some px.uuid) ||
            c.switching_rules.contains px.uuid) = true
      · exact hany_iff.mp hany
      · exfalso
        unfold delbackend at heq
        rw [if_neg hany] at heq
        rcases hl : delbackendLoop
            ((match st.proxies.find? (fun c => c.uuid == px.uuid) with
              | some p => p.srv.length
              | none => 0) + 1) st px.uuid px.id with _ | ⟨st', evs⟩
        · simp [hl] at heq
        · rcases hf : st'.proxies.find? (fun c => c.uuid == px.uuid)
            with _ | pxF
          · simp [hl, hf] at heq
          · simp [hl, hf] at heq
  · intro l1 l2 hsplit hnoref hcap h1 h2 h1u h2u hpw
    obtain ⟨prox, U⟩ := st
    simp only at hsplit
    subst hsplit
    have hanyF : (l1 ++ px :: l2).any (fun c =>
        (c.defbe == some px.uuid) ||
          c.switching_rules.contains px.uuid) = false := by
      rw [List.any_eq_false]
      intro c hc
      have := hnoref c hc
      simpa using this
    obtain ⟨evs, pxF, hloop, hu, hmem⟩ :=
      delbackendLoop_ok U l1 l2 px.srv px hcap rfl hpw h1 h1u h2 h2u
    refine ⟨evs, ?_, hmem⟩
    have e1 : List.find? (fun c => c.uuid == px.uuid) (l1 ++ px :: l2)
        = some px :=
      find?_middle _ px l2 l1
        (fun c hc => by simpa using h1u c hc) (by simp)
    have e2 : List.find? (fun c => c.uuid == px.uuid) (l1 ++ pxF :: l2)
        = some pxF :=
      find?_middle _ pxF l2 l1
        (fun c hc => by simpa using h1u c hc) (by simp [hu])
    unfold delbackend
    rw [if_neg (by rw [hanyF]; exact Bool.false_ne_true)]
    simp only [e1, hloop, e2]
    rw [removeProxyByUuid_middle px.uuid pxF l2 l1 h1u hu]

/-- Concrete server owned by the backend to delete. -/
def c4Srv : Server := { zeroServer with id := "sv1" }

/-- Concrete backend with one server, referenced by nobody. -/
def c4Px : Proxy :=
  { zeroProxy with
      id := "delme"
      uuid := 4
      cap := PR_CAP_BE ||| PR_CAP_RS
      srv := [c4Srv] }

/-- Concrete registry holding only that backend. -/
def c4St : Registry := { proxies := [c4Px], used_proxy_id := [4] }

/-- Witness for the amended C4 theorem: the unreferenced backend is
deleted, its server torn down. -/
theorem delbackend_spec_w :
    ∃ evs, delbackend c4St c4Px
        = some (0, { proxies := ([] : List Proxy) ++ [],
                     used_proxy_id := c4St.used_proxy_id }, evs) ∧
      (∀ s ∈ c4Px.srv, SrvEvent.setServerDown s.id ∈ evs) :=
  (delbackend_spec c4St c4Px).2 [] [] rfl (by decide) (by decide)
    (fun c hc => absurd hc (List.not_mem_nil c))
    (fun c hc => absurd hc (List.not_mem_nil c))
    (fun c hc => absurd hc (List.not_mem_nil c))
    (fun c hc => absurd hc (List.not_mem_nil c))
    (by simp [c4Px])

/-- Concrete self-referencing backend: its own `defbe` points at itself. -/
def c4Self : Proxy :=
  { zeroProxy with
      id := "selfie"
      uuid := 6
      cap := PR_CAP_BE ||| PR_CAP_RS
      defbe := some 6 }

/-- Concrete registry holding only the self-referencing backend. -/
def c4SelfSt : Registry := { proxies := [c4Self], used_proxy_id := [6] }

/-- Claim C4 (counterexample): `delbackend` refuses although no *other*
proxy references the backend — the registry holds only the backend itself,
whose own `defbe` points at it, and the reference scan does not skip the
proxy being deleted. -/
theorem delbackend_other_cex :
    delbackend c4SelfSt c4Self = some (1, c4SelfSt, []) ∧
    ∀ c ∈ c4SelfSt.proxies, c.uuid = c4Self.uuid := by
  decide
